import Mathlib

/-!
A verification model of the tax-simulation engine of the
Planejamento-Tributario repository (`services/taxCalculator.ts`,
`services/simplesTables.ts`, `types.ts`, and the regime-selector logic of the
dashboard component).

Monetary amounts and percentage rates are modelled as exact rationals (`ℚ`);
the source operates on JavaScript numbers.  `Math.max` becomes `max`,
`Math.abs` becomes `|·|`.  Optional TypeScript fields (`realCreditBase?`,
`notes?`, `isBlocked?`, per-line flags) are modelled with `Option` or with the
value the source substitutes for `undefined` (`[]`, `false`, `0`).
`formatBRL` wraps `Intl.NumberFormat('pt-BR')`; the exact locale rendering is
presentation-level, so it is modelled as an injective numeral rendering — the
engine only ever concatenates it into note strings.
-/

namespace TaxSim

/-- Source `ActivityType` enum from `types.ts`. -/
inductive ActivityType where
  | COMERCIO
  | INDUSTRIA
  | SERVICO_ANEXO_III
  | SERVICO_ANEXO_IV
  | SERVICO_ANEXO_V
deriving DecidableEq, Repr

/-- Source `LineTag` union from `types.ts`. -/
inductive LineTag where
  | RECEITA | DEDUCAO | IMPOSTO_VENDA | IRPJ_CSLL | FOLHA
  | CUSTO | DESPESA | REC_FIN | DESP_FIN | OUTROS | IGNORE
deriving DecidableEq, Repr

/-- Source `LineType` union from `types.ts`. -/
inductive LineType where
  | ANALYTICAL | SYNTHETIC
deriving DecidableEq, Repr

/-- Source `LalurAdjustment` union from `types.ts` (`null` becomes `none` at the
`Option` level of the line item). -/
inductive LalurAdjustment where
  | ADDITION | EXCLUSION
deriving DecidableEq, Repr

/-- Statement section of a DRE line (`'DRE' | 'BALANCO' | 'EBITDA'`). -/
inductive StatementSection where
  | DRE | BALANCO | EBITDA
deriving DecidableEq, Repr

/-- Source `DRELineItem` from `types.ts`.  The TypeScript field `section` is a Lean
keyword, hence `sectionKind`. -/
structure DRELineItem where
  description : String
  value : ℚ
  isTotal : Bool
  sectionKind : StatementSection
  level : ℕ
  tag : Option LineTag
  lineType : LineType
  useForCredit : Option Bool
  reformCreditRate : Option ℚ
  lalurAdjustment : Option LalurAdjustment
deriving DecidableEq, Repr

/-- Source `FinancialData` from `types.ts` (the `originalLines`/`composition` fields
are never read by the calculators and are omitted). -/
structure FinancialData where
  revenueAnnual : ℚ
  revenueCurrent : ℚ
  deductions : ℚ
  taxesOnSales : ℚ
  taxesIncome : ℚ
  payrollBase : ℚ
  expenses : ℚ
  financialRevenues : ℚ
  financialExpenses : ℚ
  cogs : ℚ
  profitBeforeTax : ℚ
  realCreditBase : Option ℚ
deriving DecidableEq, Repr

/-- Source `TaxRateConfig` from `types.ts`: all rates are percentages. -/
structure TaxRateConfig where
  pis : ℚ
  cofins : ℚ
  irpj : ℚ
  irpjAdicional : ℚ
  csll : ℚ
  ipi : ℚ
  iss : ℚ
  icms : ℚ
  rat : ℚ
  cpp : ℚ
  inssTerceiros : ℚ
  fgts : ℚ
  presuncaoIRPJ : ℚ
  presuncaoCSLL : ℚ
  pisFinancial : ℚ
  cofinsFinancial : ℚ
deriving DecidableEq, Repr

/-- Source `ReformConfig` from `types.ts`. -/
structure ReformConfig where
  ibsRate : ℚ
  cbsRate : ℚ
  selectiveTaxRate : ℚ
  standardCreditRate : ℚ
deriving DecidableEq, Repr

/-- Source `TaxBreakdown` from `types.ts`. -/
structure TaxBreakdown where
  taxSales : ℚ
  taxIncome : ℚ
  taxPayroll : ℚ
  charges : ℚ
deriving DecidableEq, Repr

/-- Source `TaxDetailedBreakdown` from `types.ts`; the optional reform fields default
to `0` (the reform calculator always sets them). -/
structure TaxDetailedBreakdown where
  pis : ℚ
  cofins : ℚ
  irpj : ℚ
  irpjAdicional : ℚ
  csll : ℚ
  ipi : ℚ
  iss : ℚ
  icms : ℚ
  rat : ℚ
  cpp : ℚ
  inssTerceiros : ℚ
  fgts : ℚ
  simplesDAS : ℚ
  pisFinancial : ℚ
  cofinsFinancial : ℚ
  ibs : ℚ := 0
  cbs : ℚ := 0
  selectiveTax : ℚ := 0
deriving DecidableEq, Repr

/-- Source `TaxSimulationResult` from `types.ts`.  `details` entries are
label/value pairs; optional `notes`/`isBlocked` default to `[]`/`false`. -/
structure TaxSimulationResult where
  regime : String
  totalTax : ℚ
  effectiveRate : ℚ
  breakdown : TaxBreakdown
  detailed : TaxDetailedBreakdown
  details : List (String × ℚ)
  notes : List String := []
  isBlocked : Bool := false
deriving DecidableEq, Repr

/-- Source `ReformSimulationResult` from `types.ts`. -/
structure ReformSimulationResult extends TaxSimulationResult where
  totalCredits : ℚ
  debitIBS : ℚ
  debitCBS : ℚ
  creditIBS : ℚ
  creditCBS : ℚ
deriving DecidableEq, Repr

/-- Source `SimplesTableRange` from `types.ts`. -/
structure SimplesTableRange where
  limit : ℚ
  aliquota : ℚ
  deducao : ℚ
deriving DecidableEq, Repr

/-- Source `SimplesAnnex` from `types.ts`. -/
structure SimplesAnnex where
  name : String
  ranges : List SimplesTableRange
deriving DecidableEq, Repr

/-- Source `SIMPLES_LIMIT` from `services/simplesTables.ts`. -/
def SIMPLES_LIMIT : ℚ := 4800000

/-- Source `ANEXO_I` from `services/simplesTables.ts`. -/
def ANEXO_I : SimplesAnnex :=
  { name := "Anexo I - Comércio"
    ranges :=
      [ ⟨180000, 4.0, 0⟩
      , ⟨360000, 7.3, 5940⟩
      , ⟨720000, 9.5, 13860⟩
      , ⟨1800000, 10.7, 22500⟩
      , ⟨3600000, 14.3, 87300⟩
      , ⟨4800000, 19.0, 378000⟩ ] }

/-- Source `ANEXO_II` from `services/simplesTables.ts`. -/
def ANEXO_II : SimplesAnnex :=
  { name := "Anexo II - Indústria"
    ranges :=
      [ ⟨180000, 4.5, 0⟩
      , ⟨360000, 7.8, 5940⟩
      , ⟨720000, 10.0, 13860⟩
      , ⟨1800000, 11.2, 22500⟩
      , ⟨3600000, 14.7, 85500⟩
      , ⟨4800000, 30.0, 720000⟩ ] }

/-- Source `ANEXO_III` from `services/simplesTables.ts`. -/
def ANEXO_III : SimplesAnnex :=
  { name := "Anexo III - Serviços (Geral)"
    ranges :=
      [ ⟨180000, 6.0, 0⟩
      , ⟨360000, 11.2, 9360⟩
      , ⟨720000, 13.5, 17640⟩
      , ⟨1800000, 16.0, 35640⟩
      , ⟨3600000, 21.0, 125640⟩
      , ⟨4800000, 33.0, 648000⟩ ] }

/-- Source `ANEXO_IV` from `services/simplesTables.ts`. -/
def ANEXO_IV : SimplesAnnex :=
  { name := "Anexo IV - Serviços (Limpeza, Advocacia, Obras)"
    ranges :=
      [ ⟨180000, 4.5, 0⟩
      , ⟨360000, 9.0, 8100⟩
      , ⟨720000, 10.2, 12420⟩
      , ⟨1800000, 14.0, 39780⟩
      , ⟨3600000, 22.0, 183780⟩
      , ⟨4800000, 33.0, 828000⟩ ] }

/-- Source `ANEXO_V` from `services/simplesTables.ts`. -/
def ANEXO_V : SimplesAnnex :=
  { name := "Anexo V - Serviços (Intelectuais, Tecnologia)"
    ranges :=
      [ ⟨180000, 15.5, 0⟩
      , ⟨360000, 18.0, 4500⟩
      , ⟨720000, 19.5, 9900⟩
      , ⟨1800000, 20.5, 17100⟩
      , ⟨3600000, 23.0, 62100⟩
      , ⟨4800000, 30.5, 540000⟩ ] }

/-- Source `ALL_ANEXOS` from `services/simplesTables.ts`. -/
def ALL_ANEXOS : List SimplesAnnex := [ANEXO_I, ANEXO_II, ANEXO_III, ANEXO_IV, ANEXO_V]

/-- Models `formatBRL` (`Intl.NumberFormat('pt-BR', currency BRL)`): the exact
locale text is presentation-level; the engine only embeds it in notes. -/
def formatBRL (value : ℚ) : String := toString value

/-- Source `THRESHOLD_ADICIONAL_IRPJ` constant from `services/taxCalculator.ts`. -/
def THRESHOLD_ADICIONAL_IRPJ : ℚ := 240000

/-- The `emptyDetailed` record of `calculateSimples`. -/
def emptyDetailed : TaxDetailedBreakdown :=
  { pis := 0, cofins := 0, irpj := 0, irpjAdicional := 0, csll := 0, ipi := 0
    iss := 0, icms := 0, rat := 0, cpp := 0, inssTerceiros := 0, fgts := 0
    simplesDAS := 0, pisFinancial := 0, cofinsFinancial := 0 }

/-- Annex selection of `calculateSimples` (the `switch` on `activity`,
including the Factor-R test for `SERVICO_ANEXO_V`). -/
def simplesAnnexFor (data : FinancialData) (activity : ActivityType) : SimplesAnnex :=
  let CHARGES_LABOR_ONLY_PCT : ℚ := 0.1911
  let payrollTotalEst := data.payrollBase * (1 + CHARGES_LABOR_ONLY_PCT)
  match activity with
  | ActivityType.COMERCIO => ANEXO_I
  | ActivityType.INDUSTRIA => ANEXO_II
  | ActivityType.SERVICO_ANEXO_III => ANEXO_III
  | ActivityType.SERVICO_ANEXO_IV => ANEXO_IV
  | ActivityType.SERVICO_ANEXO_V =>
      let factorR := if 0 < data.revenueAnnual then payrollTotalEst / data.revenueAnnual else 0
      if (0.28 : ℚ) ≤ factorR then ANEXO_III else ANEXO_V

/-- The Factor-R value computed by `calculateSimples` (zero unless the
activity is `SERVICO_ANEXO_V`, matching the source's `let factorR = 0`). -/
def simplesFactorR (data : FinancialData) (activity : ActivityType) : ℚ :=
  match activity with
  | ActivityType.SERVICO_ANEXO_V =>
      if 0 < data.revenueAnnual then data.payrollBase * (1 + (0.1911 : ℚ)) / data.revenueAnnual else 0
  | _ => 0

/-- Bracket lookup of `calculateSimples`:
`annex.ranges.find(r => rbt12 <= r.limit) || annex.ranges[annex.ranges.length - 1]`. -/
def simplesRange (annex : SimplesAnnex) (rbt12 : ℚ) : SimplesTableRange :=
  match annex.ranges.find? (fun r => rbt12 ≤ r.limit) with
  | some r => r
  | none => annex.ranges.getLastD ⟨0, 0, 0⟩

/-- Source `calculateSimples` from `services/taxCalculator.ts`. -/
def calculateSimples (data : FinancialData) (activity : ActivityType) : TaxSimulationResult :=
  if SIMPLES_LIMIT < data.revenueAnnual then
    { regime := "Simples Nacional"
      totalTax := 0
      effectiveRate := 0
      breakdown := { taxSales := 0, taxIncome := 0, taxPayroll := 0, charges := 0 }
      detailed := emptyDetailed
      details := []
      isBlocked := true
      notes := ["Faturamento de " ++ formatBRL data.revenueAnnual ++
                " excede limite de " ++ formatBRL SIMPLES_LIMIT ++ "."] }
  else
    let annex := simplesAnnexFor data activity
    let factorR := simplesFactorR data activity
    let rbt12 := data.revenueAnnual
    let range := simplesRange annex rbt12
    let nominalRate : ℚ :=
      if 0 < rbt12 then ((rbt12 * (range.aliquota / 100)) - range.deducao) / rbt12 else 0
    let dasTax := data.revenueAnnual * nominalRate
    let fgtsAmount := data.payrollBase * 0.08
    let cppAmount : ℚ :=
      if activity = ActivityType.SERVICO_ANEXO_IV then data.payrollBase * 0.278 else 0
    { regime := "Simples Nacional"
      totalTax := dasTax + cppAmount + fgtsAmount
      effectiveRate := ((dasTax + cppAmount + fgtsAmount) / data.revenueAnnual) * 100
      breakdown :=
        { taxSales := dasTax
          taxIncome := 0
          taxPayroll := cppAmount
          charges := fgtsAmount + cppAmount }
      detailed := { emptyDetailed with simplesDAS := dasTax, cpp := cppAmount, fgts := fgtsAmount }
      details :=
        [ ("Anexo: " ++ annex.name, 0)
        , ("DAS (Guia Única)", dasTax)
        , ("FGTS", fgtsAmount)
        , if activity = ActivityType.SERVICO_ANEXO_IV then
            ("INSS Patronal (Externo ao DAS)", cppAmount)
          else ("INSS Patronal (Incluso no DAS)", 0) ]
      notes :=
        if (0.28 : ℚ) ≤ factorR ∧ activity = ActivityType.SERVICO_ANEXO_V then
          ["Enquadrado no Anexo III pelo Fator R"]
        else [] }

/-- Source `isComercioIndustria` test shared by `calculatePresumido`/`calculateReal`. -/
def isComercioIndustria (activity : ActivityType) : Bool :=
  match activity with
  | ActivityType.COMERCIO => true
  | ActivityType.INDUSTRIA => true
  | _ => false

/-- Source `cppVal` of `calculatePresumido`/`calculateReal`. -/
def cppVal (data : FinancialData) (config : TaxRateConfig) : ℚ :=
  data.payrollBase * (config.cpp / 100)

/-- Source `ratVal` of `calculatePresumido`/`calculateReal`. -/
def ratVal (data : FinancialData) (config : TaxRateConfig) : ℚ :=
  data.payrollBase * (config.rat / 100)

/-- Source `terceirosVal` of `calculatePresumido`/`calculateReal`. -/
def terceirosVal (data : FinancialData) (config : TaxRateConfig) : ℚ :=
  data.payrollBase * (config.inssTerceiros / 100)

/-- Source `fgtsVal` of `calculatePresumido`/`calculateReal` (payroll × `fgts`/100). -/
def fgtsVal (data : FinancialData) (config : TaxRateConfig) : ℚ :=
  data.payrollBase * (config.fgts / 100)

/-- Source `cppAmount = cppVal + ratVal + terceirosVal`. -/
def cppAmount (data : FinancialData) (config : TaxRateConfig) : ℚ :=
  cppVal data config + ratVal data config + terceirosVal data config

/-- Source `chargesAmount = cppAmount + fgtsVal`. -/
def chargesAmount (data : FinancialData) (config : TaxRateConfig) : ℚ :=
  cppAmount data config + fgtsVal data config

/-- Source `baseIRPJ` of `calculatePresumido` (`calculationBase` is annual revenue). -/
def presumidoBaseIRPJ (data : FinancialData) (config : TaxRateConfig) : ℚ :=
  data.revenueAnnual * (config.presuncaoIRPJ / 100) + data.financialRevenues

/-- Source `baseCSLL` of `calculatePresumido`. -/
def presumidoBaseCSLL (data : FinancialData) (config : TaxRateConfig) : ℚ :=
  data.revenueAnnual * (config.presuncaoCSLL / 100) + data.financialRevenues

/-- Source `irpjBasico` of `calculatePresumido`. -/
def presumidoIrpjBasico (data : FinancialData) (config : TaxRateConfig) : ℚ :=
  presumidoBaseIRPJ data config * (config.irpj / 100)

/-- Source `irpjAdicional` of `calculatePresumido`. -/
def presumidoIrpjAdicional (data : FinancialData) (config : TaxRateConfig) : ℚ :=
  max 0 (presumidoBaseIRPJ data config - THRESHOLD_ADICIONAL_IRPJ) * (config.irpjAdicional / 100)

/-- Source `totalIRPJ` of `calculatePresumido`. -/
def presumidoTotalIRPJ (data : FinancialData) (config : TaxRateConfig) : ℚ :=
  presumidoIrpjBasico data config + presumidoIrpjAdicional data config

/-- Source `totalCSLL` of `calculatePresumido` (no surtax on the CSLL base). -/
def presumidoTotalCSLL (data : FinancialData) (config : TaxRateConfig) : ℚ :=
  presumidoBaseCSLL data config * (config.csll / 100)

/-- Source `iss` of `calculatePresumido` (services only). -/
def presumidoIss (data : FinancialData) (activity : ActivityType) (config : TaxRateConfig) : ℚ :=
  if isComercioIndustria activity then 0 else data.revenueAnnual * (config.iss / 100)

/-- Source `icms` of `calculatePresumido` (goods/industry only). -/
def presumidoIcms (data : FinancialData) (activity : ActivityType) (config : TaxRateConfig) : ℚ :=
  if isComercioIndustria activity then data.revenueAnnual * (config.icms / 100) else 0

/-- Source `totalSalesTax` of `calculatePresumido`. -/
def presumidoTotalSalesTax (data : FinancialData) (activity : ActivityType)
    (config : TaxRateConfig) : ℚ :=
  data.revenueAnnual * (config.pis / 100) + data.revenueAnnual * (config.cofins / 100) +
    presumidoIss data activity config + presumidoIcms data activity config +
    data.revenueAnnual * (config.ipi / 100)

/-- Source `totalTax` of `calculatePresumido`. -/
def presumidoTotalTax (data : FinancialData) (activity : ActivityType)
    (config : TaxRateConfig) : ℚ :=
  presumidoTotalIRPJ data config + presumidoTotalCSLL data config +
    presumidoTotalSalesTax data activity config + cppAmount data config + fgtsVal data config

/-- Source `calculatePresumido` from `services/taxCalculator.ts`. -/
def calculatePresumido (data : FinancialData) (activity : ActivityType)
    (config : TaxRateConfig) : TaxSimulationResult :=
  let totalTax := presumidoTotalTax data activity config
  { regime := "Lucro Presumido"
    totalTax := totalTax
    effectiveRate := (totalTax / data.revenueAnnual) * 100
    breakdown :=
      { taxSales := presumidoTotalSalesTax data activity config
        taxIncome := presumidoTotalIRPJ data config + presumidoTotalCSLL data config
        taxPayroll := cppAmount data config
        charges := chargesAmount data config }
    detailed :=
      { pis := data.revenueAnnual * (config.pis / 100)
        cofins := data.revenueAnnual * (config.cofins / 100)
        irpj := presumidoIrpjBasico data config
        irpjAdicional := presumidoIrpjAdicional data config
        csll := presumidoTotalCSLL data config
        ipi := data.revenueAnnual * (config.ipi / 100)
        iss := presumidoIss data activity config
        icms := presumidoIcms data activity config
        cpp := cppVal data config
        rat := ratVal data config
        inssTerceiros := terceirosVal data config
        fgts := fgtsVal data config
        simplesDAS := 0
        pisFinancial := 0
        cofinsFinancial := 0 }
    details :=
      [ ("PIS/COFINS", data.revenueAnnual * (config.pis / 100) + data.revenueAnnual * (config.cofins / 100))
      , ("IRPJ/CSLL", presumidoTotalIRPJ data config + presumidoTotalCSLL data config)
      , ("ISS/ICMS/IPI", presumidoIss data activity config + presumidoIcms data activity config +
          data.revenueAnnual * (config.ipi / 100))
      , ("INSS Patronal", cppAmount data config)
      , ("FGTS", fgtsVal data config) ] }

/-- LALUR adjustments argument of `calculateReal`. -/
structure LalurAdjustments where
  additions : ℚ
  exclusions : ℚ
deriving DecidableEq, Repr

/-- Source `revenueBase` of `calculateReal`: `Math.max(0, revenueAnnual - deductions)`. -/
def realRevenueBase (data : FinancialData) : ℚ :=
  max 0 (data.revenueAnnual - data.deductions)

/-- Source `debitoPis` of `calculateReal`. -/
def realDebitoPis (data : FinancialData) (config : TaxRateConfig) : ℚ :=
  realRevenueBase data * (config.pis / 100)

/-- Source `debitoCofins` of `calculateReal`. -/
def realDebitoCofins (data : FinancialData) (config : TaxRateConfig) : ℚ :=
  realRevenueBase data * (config.cofins / 100)

/-- Source `creditBase` of `calculateReal`: the explicit `realCreditBase` override if
present, else `cogs` for goods/industry, else 20% of `expenses`. -/
def realCreditBaseVal (data : FinancialData) (activity : ActivityType) : ℚ :=
  match data.realCreditBase with
  | some c => c
  | none => if isComercioIndustria activity then data.cogs else data.expenses * 0.20

/-- Source `pisPayable` of `calculateReal`. -/
def realPisPayable (data : FinancialData) (activity : ActivityType)
    (config : TaxRateConfig) : ℚ :=
  max 0 (realDebitoPis data config - realCreditBaseVal data activity * (config.pis / 100))

/-- Source `cofinsPayable` of `calculateReal`. -/
def realCofinsPayable (data : FinancialData) (activity : ActivityType)
    (config : TaxRateConfig) : ℚ :=
  max 0 (realDebitoCofins data config - realCreditBaseVal data activity * (config.cofins / 100))

/-- Source `pisFinancial` of `calculateReal` (`config.pisFinancial || 0` is the
identity on well-typed numeric rates). -/
def realPisFinancial (data : FinancialData) (config : TaxRateConfig) : ℚ :=
  data.financialRevenues * (config.pisFinancial / 100)

/-- Source `cofinsFinancial` of `calculateReal`. -/
def realCofinsFinancial (data : FinancialData) (config : TaxRateConfig) : ℚ :=
  data.financialRevenues * (config.cofinsFinancial / 100)

/-- Source `totalFinancialTaxes` of `calculateReal`. -/
def realTotalFinancialTaxes (data : FinancialData) (config : TaxRateConfig) : ℚ :=
  realPisFinancial data config + realCofinsFinancial data config

/-- Source `ipi` of `calculateReal` (flat on gross annual revenue). -/
def realIpi (data : FinancialData) (config : TaxRateConfig) : ℚ :=
  data.revenueAnnual * (config.ipi / 100)

/-- Source `iss` of `calculateReal` (services only). -/
def realIss (data : FinancialData) (activity : ActivityType) (config : TaxRateConfig) : ℚ :=
  if isComercioIndustria activity then 0 else data.revenueAnnual * (config.iss / 100)

/-- Source `icms` of `calculateReal` (goods/industry only). -/
def realIcms (data : FinancialData) (activity : ActivityType) (config : TaxRateConfig) : ℚ :=
  if isComercioIndustria activity then data.revenueAnnual * (config.icms / 100) else 0

/-- Source `totalSalesTax` of `calculateReal`. -/
def realTotalSalesTax (data : FinancialData) (activity : ActivityType)
    (config : TaxRateConfig) : ℚ :=
  realPisPayable data activity config + realCofinsPayable data activity config +
    realIss data activity config + realIcms data activity config + realIpi data config

/-- Source `netRevenue` of `calculateReal`. -/
def realNetRevenue (data : FinancialData) (activity : ActivityType)
    (config : TaxRateConfig) : ℚ :=
  data.revenueAnnual - data.deductions - realTotalSalesTax data activity config

/-- Source `totalDeductibleExpenses` of `calculateReal`. -/
def realTotalDeductibleExpenses (data : FinancialData) (config : TaxRateConfig) : ℚ :=
  data.cogs + data.expenses + data.payrollBase + chargesAmount data config

/-- Source `operationalResult` of `calculateReal`. -/
def realOperationalResult (data : FinancialData) (activity : ActivityType)
    (config : TaxRateConfig) : ℚ :=
  realNetRevenue data activity config - realTotalDeductibleExpenses data config

/-- Source `financialResult` of `calculateReal`. -/
def realFinancialResult (data : FinancialData) (config : TaxRateConfig) : ℚ :=
  data.financialRevenues - realTotalFinancialTaxes data config - data.financialExpenses

/-- Source `profitBeforeTax` of `calculateReal`. -/
def realProfitBeforeTax (data : FinancialData) (activity : ActivityType)
    (config : TaxRateConfig) : ℚ :=
  realOperationalResult data activity config + realFinancialResult data config

/-- Source `taxableIncome` of `calculateReal`. -/
def realTaxableIncome (data : FinancialData) (activity : ActivityType)
    (config : TaxRateConfig) (adj : LalurAdjustments) : ℚ :=
  max 0 (realProfitBeforeTax data activity config + adj.additions - adj.exclusions)

/-- Source `irpjBasico` of `calculateReal`. -/
def realIrpjBasico (data : FinancialData) (activity : ActivityType)
    (config : TaxRateConfig) (adj : LalurAdjustments) : ℚ :=
  realTaxableIncome data activity config adj * (config.irpj / 100)

/-- Source `irpjAdicional` of `calculateReal`. -/
def realIrpjAdicional (data : FinancialData) (activity : ActivityType)
    (config : TaxRateConfig) (adj : LalurAdjustments) : ℚ :=
  max 0 (realTaxableIncome data activity config adj - THRESHOLD_ADICIONAL_IRPJ) *
    (config.irpjAdicional / 100)

/-- Source `totalIRPJ` of `calculateReal`. -/
def realTotalIRPJ (data : FinancialData) (activity : ActivityType)
    (config : TaxRateConfig) (adj : LalurAdjustments) : ℚ :=
  realIrpjBasico data activity config adj + realIrpjAdicional data activity config adj

/-- Source `totalCSLL` of `calculateReal`. -/
def realTotalCSLL (data : FinancialData) (activity : ActivityType)
    (config : TaxRateConfig) (adj : LalurAdjustments) : ℚ :=
  realTaxableIncome data activity config adj * (config.csll / 100)

/-- Source `totalTax` of `calculateReal`. -/
def realTotalTax (data : FinancialData) (activity : ActivityType)
    (config : TaxRateConfig) (adj : LalurAdjustments) : ℚ :=
  realTotalIRPJ data activity config adj + realTotalCSLL data activity config adj +
    realTotalSalesTax data activity config + realTotalFinancialTaxes data config +
    cppAmount data config + fgtsVal data config

/-- Source `calculateReal` from `services/taxCalculator.ts`. -/
def calculateReal (data : FinancialData) (activity : ActivityType)
    (config : TaxRateConfig)
    (lalurAdjustments : LalurAdjustments := ⟨0, 0⟩) : TaxSimulationResult :=
  let totalTax := realTotalTax data activity config lalurAdjustments
  { regime := "Lucro Real"
    totalTax := totalTax
    effectiveRate := (totalTax / data.revenueAnnual) * 100
    breakdown :=
      { taxSales := realTotalSalesTax data activity config
        taxIncome := realTotalIRPJ data activity config lalurAdjustments +
          realTotalCSLL data activity config lalurAdjustments
        taxPayroll := cppAmount data config
        charges := chargesAmount data config }
    detailed :=
      { pis := realPisPayable data activity config
        cofins := realCofinsPayable data activity config
        irpj := realIrpjBasico data activity config lalurAdjustments
        irpjAdicional := realIrpjAdicional data activity config lalurAdjustments
        csll := realTotalCSLL data activity config lalurAdjustments
        ipi := realIpi data config
        iss := realIss data activity config
        icms := realIcms data activity config
        cpp := cppVal data config
        rat := ratVal data config
        inssTerceiros := terceirosVal data config
        fgts := fgtsVal data config
        simplesDAS := 0
        pisFinancial := realPisFinancial data config
        cofinsFinancial := realCofinsFinancial data config }
    details :=
      [ ("PIS/COFINS (Liq)", realPisPayable data activity config + realCofinsPayable data activity config)
      , ("PIS/COFINS (Fin)", realTotalFinancialTaxes data config)
      , ("IRPJ/CSLL", realTotalIRPJ data activity config lalurAdjustments +
          realTotalCSLL data activity config lalurAdjustments)
      , ("ISS/ICMS", realIss data activity config + realIcms data activity config)
      , ("INSS Patronal", cppAmount data config)
      , ("FGTS", fgtsVal data config) ]
    notes :=
      (if realTaxableIncome data activity config lalurAdjustments ≤ 0 then
        ["Prejuízo Fiscal projetado"] else []) ++
      (if 0 < lalurAdjustments.additions then
        ["Adições LALUR: +" ++ formatBRL lalurAdjustments.additions] else []) ++
      (if 0 < lalurAdjustments.exclusions then
        ["Exclusões LALUR: -" ++ formatBRL lalurAdjustments.exclusions] else []) }

/-- Source `revenueBase` of `calculateReform`. -/
def reformRevenueBase (data : FinancialData) : ℚ :=
  max 0 (data.revenueAnnual - data.deductions)

/-- Source `ibsDebit` of `calculateReform`. -/
def reformIbsDebit (data : FinancialData) (reformConfig : ReformConfig) : ℚ :=
  reformRevenueBase data * (reformConfig.ibsRate / 100)

/-- Source `cbsDebit` of `calculateReform`. -/
def reformCbsDebit (data : FinancialData) (reformConfig : ReformConfig) : ℚ :=
  reformRevenueBase data * (reformConfig.cbsRate / 100)

/-- Source `selectiveTax` of `calculateReform`. -/
def reformSelectiveTax (data : FinancialData) (reformConfig : ReformConfig) : ℚ :=
  reformRevenueBase data * (reformConfig.selectiveTaxRate / 100)

/-- Source `eligibleBase` contribution of a single line in `calculateReform`'s
`forEach`: analytical COST/EXPENSE lines with a strictly positive credit rate
contribute `|value| × rate/100`; every other line leaves the accumulators
unchanged (contribution `0`). -/
def lineEligibleBase (line : DRELineItem) : ℚ :=
  if line.lineType = LineType.ANALYTICAL ∧
      (line.tag = some LineTag.CUSTO ∨ line.tag = some LineTag.DESPESA) then
    let creditRate := line.reformCreditRate.getD 0
    if 0 < creditRate then |line.value| * (creditRate / 100) else 0
  else 0

/-- Source `ibsCredit` accumulation of `calculateReform` (`forEach` with `+=`). -/
def reformIbsCredit (displayLines : List DRELineItem) (reformConfig : ReformConfig) : ℚ :=
  displayLines.foldl (fun acc line => acc + lineEligibleBase line * (reformConfig.ibsRate / 100)) 0

/-- Source `cbsCredit` accumulation of `calculateReform`. -/
def reformCbsCredit (displayLines : List DRELineItem) (reformConfig : ReformConfig) : ℚ :=
  displayLines.foldl (fun acc line => acc + lineEligibleBase line * (reformConfig.cbsRate / 100)) 0

/-- Source `ibsPayable` of `calculateReform`. -/
def reformIbsPayable (data : FinancialData) (displayLines : List DRELineItem)
    (reformConfig : ReformConfig) : ℚ :=
  max 0 (reformIbsDebit data reformConfig - reformIbsCredit displayLines reformConfig)

/-- Source `cbsPayable` of `calculateReform`. -/
def reformCbsPayable (data : FinancialData) (displayLines : List DRELineItem)
    (reformConfig : ReformConfig) : ℚ :=
  max 0 (reformCbsDebit data reformConfig - reformCbsCredit displayLines reformConfig)

/-- Source `totalIVA` of `calculateReform`. -/
def reformTotalIVA (data : FinancialData) (displayLines : List DRELineItem)
    (reformConfig : ReformConfig) : ℚ :=
  reformIbsPayable data displayLines reformConfig +
    reformCbsPayable data displayLines reformConfig + reformSelectiveTax data reformConfig

/-- Source `calculateReform` from `services/taxCalculator.ts`. -/
def calculateReform (data : FinancialData) (displayLines : List DRELineItem)
    (reformConfig : ReformConfig)
    (currentBestScenario : TaxSimulationResult) : ReformSimulationResult :=
  let totalIVA := reformTotalIVA data displayLines reformConfig
  let taxIncome := currentBestScenario.breakdown.taxIncome
  let taxPayroll := currentBestScenario.breakdown.taxPayroll
  let charges := currentBestScenario.breakdown.charges
  let totalTax := totalIVA + taxIncome + taxPayroll + charges
  { regime := "Reforma Tributária"
    totalTax := totalTax
    effectiveRate := (totalTax / data.revenueAnnual) * 100
    breakdown :=
      { taxSales := totalIVA
        taxIncome := taxIncome
        taxPayroll := taxPayroll
        charges := charges }
    detailed :=
      { emptyDetailed with
          ibs := reformIbsPayable data displayLines reformConfig
          cbs := reformCbsPayable data displayLines reformConfig
          selectiveTax := reformSelectiveTax data reformConfig }
    totalCredits := reformIbsCredit displayLines reformConfig + reformCbsCredit displayLines reformConfig
    debitIBS := reformIbsDebit data reformConfig
    debitCBS := reformCbsDebit data reformConfig
    creditIBS := reformIbsCredit displayLines reformConfig
    creditCBS := reformCbsCredit displayLines reformConfig
    details :=
      [ ("IBS a Pagar", reformIbsPayable data displayLines reformConfig)
      , ("CBS a Pagar", reformCbsPayable data displayLines reformConfig)
      , ("Imposto Seletivo", reformSelectiveTax data reformConfig)
      , ("Créditos Tomados", reformIbsCredit displayLines reformConfig +
          reformCbsCredit displayLines reformConfig)
      , ("IRPJ/CSLL (Estimado)", taxIncome) ] }

/-- The regime selector from the dashboard component:
`[simples, presumido, real].filter(r => !r.isBlocked)` reduced by
`(prev, curr) => prev.totalTax < curr.totalTax ? prev : curr`, falling back to
the actual-profit result when every regime is blocked. -/
def bestCurrent (simples presumido real : TaxSimulationResult) : TaxSimulationResult :=
  let allCurrent := [simples, presumido, real].filter (fun r => !r.isBlocked)
  match allCurrent with
  | [] => real
  | x :: xs => xs.foldl (fun prev curr => if prev.totalTax < curr.totalTax then prev else curr) x

/-- Source `DEFAULT_PRESUMIDO_CONFIG` from the dashboard component. -/
def DEFAULT_PRESUMIDO_CONFIG : TaxRateConfig :=
  { pis := 0.65, cofins := 3.00, irpj := 15.00, irpjAdicional := 10.00, csll := 9.00
    ipi := 0.00, iss := 5.00, icms := 18.00, rat := 2.00, cpp := 20.00
    inssTerceiros := 5.80, fgts := 8.00
    presuncaoIRPJ := 32.00, presuncaoCSLL := 32.00
    pisFinancial := 0, cofinsFinancial := 0 }

/-- Source `DEFAULT_REAL_CONFIG` from the dashboard component. -/
def DEFAULT_REAL_CONFIG : TaxRateConfig :=
  { pis := 1.65, cofins := 7.60, irpj := 15.00, irpjAdicional := 10.00, csll := 9.00
    ipi := 0.00, iss := 5.00, icms := 18.00, rat := 2.00, cpp := 20.00
    inssTerceiros := 5.80, fgts := 8.00
    presuncaoIRPJ := 0, presuncaoCSLL := 0
    pisFinancial := 0.65, cofinsFinancial := 4.00 }

/-- Source `DEFAULT_REFORM_CONFIG` from the dashboard component. -/
def DEFAULT_REFORM_CONFIG : ReformConfig :=
  { ibsRate := 17.5, cbsRate := 9.0, selectiveTaxRate := 0, standardCreditRate := 100 }

/-! ### Concrete inputs used by witnesses and counterexamples -/

/-- An all-zero financial summary. -/
def zeroData : FinancialData :=
  { revenueAnnual := 0, revenueCurrent := 0, deductions := 0, taxesOnSales := 0
    taxesIncome := 0, payrollBase := 0, expenses := 0, financialRevenues := 0
    financialExpenses := 0, cogs := 0, profitBeforeTax := 0, realCreditBase := none }

/-- Revenue 1,000,000, no financial revenue (the spec's end-to-end scenario). -/
def presumidoDemoData : FinancialData := { zeroData with revenueAnnual := 1000000 }

/-- A single analytical expense line of value −100,000 with a 50% reform
credit rate (the spec's reform scenario). -/
def demoLine : DRELineItem :=
  { description := "Despesa Operacional", value := -100000, isTotal := false
    sectionKind := StatementSection.DRE, level := 0, tag := some LineTag.DESPESA
    lineType := LineType.ANALYTICAL, useForCredit := none
    reformCreditRate := some 50, lalurAdjustment := none }

/-- A simulation result with the given regime label, total tax and block flag
(all other fields zero) — used to exercise the regime selector. -/
def mkRes (regime : String) (totalTax : ℚ) (isBlocked : Bool) : TaxSimulationResult :=
  { regime := regime, totalTax := totalTax, effectiveRate := 0
    breakdown := ⟨0, 0, 0, 0⟩, detailed := emptyDetailed, details := []
    isBlocked := isBlocked }

/-! ### Claims -/

/-- C1: the actual-profit derivation follows, in order: net revenue =
revenue − deductions − (PIS payable + COFINS payable + ISS/ICMS + IPI);
operating result = net revenue − (cost of goods + operating expenses +
payroll base + employer charges); financial result = financial revenue −
financial-revenue PIS/COFINS − financial expense; pre-tax profit = operating
result + financial result; taxable income = max(0, pre-tax profit +
additions − exclusions).  When the adjusted expression is not positive,
taxable income floors to zero, IRPJ (basic and surtax) and CSLL are zero, the
result carries the projected-fiscal-loss note, and additions/exclusions are
still reported in the notes. -/
theorem real_profit_derivation (data : FinancialData) (activity : ActivityType)
    (config : TaxRateConfig) (adj : LalurAdjustments) :
    realNetRevenue data activity config =
      data.revenueAnnual - data.deductions -
        (realPisPayable data activity config + realCofinsPayable data activity config +
          (realIss data activity config + realIcms data activity config) +
          realIpi data config) ∧
    realOperationalResult data activity config =
      realNetRevenue data activity config -
        (data.cogs + data.expenses + data.payrollBase + chargesAmount data config) ∧
    realFinancialResult data config =
      data.financialRevenues -
        (realPisFinancial data config + realCofinsFinancial data config) -
        data.financialExpenses ∧
    realProfitBeforeTax data activity config =
      realOperationalResult data activity config + realFinancialResult data config ∧
    realTaxableIncome data activity config adj =
      max 0 (realProfitBeforeTax data activity config + adj.additions - adj.exclusions) ∧
    (realProfitBeforeTax data activity config + adj.additions - adj.exclusions ≤ 0 →
      realTaxableIncome data activity config adj = 0 ∧
      (calculateReal data activity config adj).detailed.irpj = 0 ∧
      (calculateReal data activity config adj).detailed.irpjAdicional = 0 ∧
      (calculateReal data activity config adj).detailed.csll = 0 ∧
      (calculateReal data activity config adj).breakdown.taxIncome = 0 ∧
      "Prejuízo Fiscal projetado" ∈ (calculateReal data activity config adj).notes ∧
      (0 < adj.additions →
        ("Adições LALUR: +" ++ formatBRL adj.additions) ∈
          (calculateReal data activity config adj).notes) ∧
      (0 < adj.exclusions →
        ("Exclusões LALUR: -" ++ formatBRL adj.exclusions) ∈
          (calculateReal data activity config adj).notes)) := by
  refine ⟨by unfold realNetRevenue realTotalSalesTax; ring,
    by unfold realOperationalResult realTotalDeductibleExpenses; ring,
    by unfold realFinancialResult realTotalFinancialTaxes; ring,
    rfl, rfl, ?_⟩
  intro h
  have ht : realTaxableIncome data activity config adj = 0 := max_eq_left h
  have hirpj : realIrpjBasico data activity config adj = 0 := by
    unfold realIrpjBasico; rw [ht]; ring
  have hadic : realIrpjAdicional data activity config adj = 0 := by
    unfold realIrpjAdicional THRESHOLD_ADICIONAL_IRPJ; rw [ht]
    rw [show max 0 ((0 : ℚ) - 240000) = 0 from max_eq_left (by norm_num)]; ring
  have hcsll : realTotalCSLL data activity config adj = 0 := by
    unfold realTotalCSLL; rw [ht]; ring
  refine ⟨ht, hirpj, hadic, hcsll, ?_, ?_, ?_, ?_⟩
  · show realTotalIRPJ data activity config adj + realTotalCSLL data activity config adj = 0
    unfold realTotalIRPJ; rw [hirpj, hadic, hcsll]; ring
  · show _ ∈ (calculateReal data activity config adj).notes
    simp only [calculateReal, ht, le_refl, if_pos, List.mem_append, List.mem_singleton]
    left; left; trivial
  · intro ha
    simp only [calculateReal, ht, le_refl, if_pos, if_pos ha, List.mem_append,
      List.mem_singleton]
    left; right; trivial
  · intro he
    simp only [calculateReal, ht, le_refl, if_pos, if_pos he, List.mem_append,
      List.mem_singleton]
    right; trivial

/-- C1 witness: the all-zero summary with LALUR additions 5 and exclusions 10
has a non-positive adjusted result, zero income taxes, and carries both the
fiscal-loss note and the additions note. -/
theorem real_profit_derivation_witness :
    (calculateReal zeroData ActivityType.SERVICO_ANEXO_III DEFAULT_REAL_CONFIG
        ⟨5, 10⟩).detailed.irpj = 0 ∧
    "Prejuízo Fiscal projetado" ∈
      (calculateReal zeroData ActivityType.SERVICO_ANEXO_III DEFAULT_REAL_CONFIG
        ⟨5, 10⟩).notes ∧
    ("Adições LALUR: +" ++ formatBRL 5) ∈
      (calculateReal zeroData ActivityType.SERVICO_ANEXO_III DEFAULT_REAL_CONFIG
        ⟨5, 10⟩).notes := by
  have h := (real_profit_derivation zeroData ActivityType.SERVICO_ANEXO_III
    DEFAULT_REAL_CONFIG ⟨5, 10⟩).2.2.2.2.2
  have hle : realProfitBeforeTax zeroData ActivityType.SERVICO_ANEXO_III
      DEFAULT_REAL_CONFIG + (LalurAdjustments.mk 5 10).additions -
      (LalurAdjustments.mk 5 10).exclusions ≤ 0 := by
    norm_num [realProfitBeforeTax, realOperationalResult, realNetRevenue,
      realTotalSalesTax, realPisPayable, realCofinsPayable, realDebitoPis,
      realDebitoCofins, realRevenueBase, realCreditBaseVal, realIss, realIcms,
      realIpi, realTotalDeductibleExpenses, chargesAmount, cppAmount, cppVal,
      ratVal, terceirosVal, fgtsVal, realFinancialResult,
      realTotalFinancialTaxes, realPisFinancial, realCofinsFinancial, zeroData,
      DEFAULT_REAL_CONFIG, isComercioIndustria]
  obtain ⟨-, h2, -, -, -, h6, h7, -⟩ := h hle
  exact ⟨h2, h6, h7 (by norm_num)⟩

/-- C3: the presumed-profit income-tax base is revenue × IRPJ presumption
margin plus financial revenue in full, the social-contribution base is
revenue × its own margin plus financial revenue in full, income tax is
base × IRPJ rate plus a surtax max(0, base − 240,000) × surtax rate applied
to the IRPJ base only (the CSLL has no surtax); with the default
configuration, revenue 1,000,000 and no financial revenue the IRPJ base is
320,000, basic income tax 48,000 and surtax 8,000, and the surtax is positive
exactly when the IRPJ base exceeds 240,000. -/
theorem presumido_income_tax (data : FinancialData) (activity : ActivityType)
    (config : TaxRateConfig) :
    (calculatePresumido data activity config).breakdown.taxIncome =
      presumidoTotalIRPJ data config + presumidoTotalCSLL data config ∧
    presumidoBaseIRPJ data config =
      data.revenueAnnual * (config.presuncaoIRPJ / 100) + data.financialRevenues ∧
    presumidoBaseCSLL data config =
      data.revenueAnnual * (config.presuncaoCSLL / 100) + data.financialRevenues ∧
    presumidoTotalIRPJ data config =
      presumidoBaseIRPJ data config * (config.irpj / 100) +
        max 0 (presumidoBaseIRPJ data config - 240000) * (config.irpjAdicional / 100) ∧
    presumidoTotalCSLL data config =
      presumidoBaseCSLL data config * (config.csll / 100) ∧
    (0 < config.irpjAdicional →
      (0 < presumidoIrpjAdicional data config ↔ 240000 < presumidoBaseIRPJ data config)) ∧
    presumidoBaseIRPJ presumidoDemoData DEFAULT_PRESUMIDO_CONFIG = 320000 ∧
    presumidoIrpjBasico presumidoDemoData DEFAULT_PRESUMIDO_CONFIG = 48000 ∧
    presumidoIrpjAdicional presumidoDemoData DEFAULT_PRESUMIDO_CONFIG = 8000 := by
  refine ⟨rfl, rfl, rfl, rfl, rfl, ?_, ?_, ?_, ?_⟩
  · intro hrate
    constructor
    · intro hpos
      by_contra hle
      push_neg at hle
      have h0 : max 0 (presumidoBaseIRPJ data config - THRESHOLD_ADICIONAL_IRPJ) = 0 :=
        max_eq_left (by unfold THRESHOLD_ADICIONAL_IRPJ; linarith)
      rw [presumidoIrpjAdicional, h0, zero_mul] at hpos
      exact lt_irrefl 0 hpos
    · intro hgt
      have h0 : max 0 (presumidoBaseIRPJ data config - THRESHOLD_ADICIONAL_IRPJ) =
          presumidoBaseIRPJ data config - THRESHOLD_ADICIONAL_IRPJ :=
        max_eq_right (by unfold THRESHOLD_ADICIONAL_IRPJ; linarith)
      rw [presumidoIrpjAdicional, h0]
      apply mul_pos
      · unfold THRESHOLD_ADICIONAL_IRPJ; linarith
      · positivity
  · norm_num [presumidoBaseIRPJ, presumidoDemoData, zeroData, DEFAULT_PRESUMIDO_CONFIG]
  · norm_num [presumidoIrpjBasico, presumidoBaseIRPJ, presumidoDemoData, zeroData,
      DEFAULT_PRESUMIDO_CONFIG]
  · norm_num [presumidoIrpjAdicional, presumidoBaseIRPJ, presumidoDemoData, zeroData,
      DEFAULT_PRESUMIDO_CONFIG, THRESHOLD_ADICIONAL_IRPJ]

/-- C3 witness: at the default configuration and the demo summary the surtax
rate is positive, so the boundary equivalence applies: the surtax is positive
and the base exceeds 240,000. -/
theorem presumido_income_tax_witness :
    0 < presumidoIrpjAdicional presumidoDemoData DEFAULT_PRESUMIDO_CONFIG ∧
    240000 < presumidoBaseIRPJ presumidoDemoData DEFAULT_PRESUMIDO_CONFIG := by
  have h := presumido_income_tax presumidoDemoData ActivityType.SERVICO_ANEXO_III
    DEFAULT_PRESUMIDO_CONFIG
  have hiff := h.2.2.2.2.2.1 (by norm_num [DEFAULT_PRESUMIDO_CONFIG])
  have hbase : 240000 < presumidoBaseIRPJ presumidoDemoData DEFAULT_PRESUMIDO_CONFIG := by
    rw [h.2.2.2.2.2.2.1]; norm_num
  exact ⟨hiff.mpr hbase, hbase⟩

/-- Left folds that add a per-element contribution can be peeled off the
accumulator. -/
theorem foldl_add_shift (g : DRELineItem → ℚ) (a : ℚ) (ls : List DRELineItem) :
    ls.foldl (fun acc x => acc + g x) a = a + ls.foldl (fun acc x => acc + g x) 0 := by
  induction ls generalizing a with
  | nil => simp
  | cons x xs ih =>
      simp only [List.foldl_cons]
      rw [ih (a + g x), ih (0 + g x)]
      ring

/-- C5: each ANALYTICAL line tagged COST or EXPENSE with credit rate p > 0
contributes eligible amount |value| × p/100, accruing eligible × IBS rate and
eligible × CBS rate to the per-leg credits, summed over all lines; a rate-0
line contributes zero; the payable per leg is max(0, debit − credit) and the
total VAT is both legs' payables plus the selective tax; the single expense
line of −100,000 at rate 50% yields eligible 50,000, IBS credit 8,750 at
17.5% and CBS credit 4,500 at 9%. -/
theorem reform_credit_netting (l : DRELineItem) (ls : List DRELineItem)
    (reformConfig : ReformConfig) (data : FinancialData) :
    reformIbsCredit (l :: ls) reformConfig =
      lineEligibleBase l * (reformConfig.ibsRate / 100) + reformIbsCredit ls reformConfig ∧
    reformCbsCredit (l :: ls) reformConfig =
      lineEligibleBase l * (reformConfig.cbsRate / 100) + reformCbsCredit ls reformConfig ∧
    (l.lineType = LineType.ANALYTICAL →
      (l.tag = some LineTag.CUSTO ∨ l.tag = some LineTag.DESPESA) →
      0 < l.reformCreditRate.getD 0 →
      lineEligibleBase l = |l.value| * (l.reformCreditRate.getD 0 / 100)) ∧
    (l.reformCreditRate.getD 0 = 0 → lineEligibleBase l = 0) ∧
    reformIbsPayable data ls reformConfig =
      max 0 (reformIbsDebit data reformConfig - reformIbsCredit ls reformConfig) ∧
    reformCbsPayable data ls reformConfig =
      max 0 (reformCbsDebit data reformConfig - reformCbsCredit ls reformConfig) ∧
    reformTotalIVA data ls reformConfig =
      reformIbsPayable data ls reformConfig + reformCbsPayable data ls reformConfig +
        reformSelectiveTax data reformConfig ∧
    lineEligibleBase demoLine = 50000 ∧
    reformIbsCredit [demoLine] DEFAULT_REFORM_CONFIG = 8750 ∧
    reformCbsCredit [demoLine] DEFAULT_REFORM_CONFIG = 4500 := by
  refine ⟨?_, ?_, ?_, ?_, rfl, rfl, rfl, ?_, ?_, ?_⟩
  · simp only [reformIbsCredit, List.foldl_cons]
    rw [foldl_add_shift, zero_add, add_comm]
  · simp only [reformCbsCredit, List.foldl_cons]
    rw [foldl_add_shift, zero_add, add_comm]
  · intro h1 h2 h3
    simp only [lineEligibleBase, if_pos (And.intro h1 h2), if_pos h3]
  · intro h0
    by_cases hq : l.lineType = LineType.ANALYTICAL ∧
        (l.tag = some LineTag.CUSTO ∨ l.tag = some LineTag.DESPESA)
    · simp [lineEligibleBase, if_pos hq, h0]
    · simp only [lineEligibleBase, if_neg hq]
  · norm_num [lineEligibleBase, demoLine]
  · norm_num [reformIbsCredit, lineEligibleBase, demoLine, DEFAULT_REFORM_CONFIG, List.foldl]
  · norm_num [reformCbsCredit, lineEligibleBase, demoLine, DEFAULT_REFORM_CONFIG, List.foldl]

/-- C5 witness: at the demo expense line the qualifying hypotheses hold and
the eligible amount is |−100,000| × 50/100. -/
theorem reform_credit_netting_witness :
    lineEligibleBase demoLine = |demoLine.value| * (demoLine.reformCreditRate.getD 0 / 100) ∧
    lineEligibleBase demoLine = 50000 :=
  ⟨(reform_credit_netting demoLine [] DEFAULT_REFORM_CONFIG zeroData).2.2.1
      rfl (Or.inr rfl) (by norm_num [demoLine]),
    (reform_credit_netting demoLine [] DEFAULT_REFORM_CONFIG zeroData).2.2.2.2.2.2.2.1⟩

/-- C6: the reform result's income-tax, payroll-tax and employer-charges
breakdown fields are carried over unchanged from the baseline result, and its
total tax is the total VAT plus those three carried-over amounts. -/
theorem reform_carryover (data : FinancialData) (displayLines : List DRELineItem)
    (reformConfig : ReformConfig) (currentBestScenario : TaxSimulationResult) :
    (calculateReform data displayLines reformConfig currentBestScenario).breakdown.taxIncome =
      currentBestScenario.breakdown.taxIncome ∧
    (calculateReform data displayLines reformConfig currentBestScenario).breakdown.taxPayroll =
      currentBestScenario.breakdown.taxPayroll ∧
    (calculateReform data displayLines reformConfig currentBestScenario).breakdown.charges =
      currentBestScenario.breakdown.charges ∧
    (calculateReform data displayLines reformConfig currentBestScenario).totalTax =
      reformTotalIVA data displayLines reformConfig +
        currentBestScenario.breakdown.taxIncome +
        currentBestScenario.breakdown.taxPayroll +
        currentBestScenario.breakdown.charges :=
  ⟨rfl, rfl, rfl, rfl⟩

/-- C10: in every result of the three current-regime calculators the charges
breakdown field already contains the payroll-tax field as a summand (charges =
taxPayroll + the severance-fund amount reported in `detailed.fgts`), the four
breakdown fields sum to totalTax + taxPayroll (+ the financial-revenue
PIS/COFINS, which sits outside the breakdown, for the actual-profit regime),
and the reform total, which adds both the baseline's taxPayroll and its
charges to the VAT, counts the baseline employer contribution twice. -/
theorem breakdown_double_count (data : FinancialData) (activity : ActivityType)
    (config : TaxRateConfig) (adj : LalurAdjustments)
    (displayLines : List DRELineItem) (reformConfig : ReformConfig) :
    (calculateSimples data activity).breakdown.charges =
      (calculateSimples data activity).breakdown.taxPayroll +
        (calculateSimples data activity).detailed.fgts ∧
    (calculatePresumido data activity config).breakdown.charges =
      (calculatePresumido data activity config).breakdown.taxPayroll +
        (calculatePresumido data activity config).detailed.fgts ∧
    (calculateReal data activity config adj).breakdown.charges =
      (calculateReal data activity config adj).breakdown.taxPayroll +
        (calculateReal data activity config adj).detailed.fgts ∧
    (calculateSimples data activity).breakdown.taxSales +
        (calculateSimples data activity).breakdown.taxIncome +
        (calculateSimples data activity).breakdown.taxPayroll +
        (calculateSimples data activity).breakdown.charges =
      (calculateSimples data activity).totalTax +
        (calculateSimples data activity).breakdown.taxPayroll ∧
    (calculatePresumido data activity config).breakdown.taxSales +
        (calculatePresumido data activity config).breakdown.taxIncome +
        (calculatePresumido data activity config).breakdown.taxPayroll +
        (calculatePresumido data activity config).breakdown.charges =
      (calculatePresumido data activity config).totalTax +
        (calculatePresumido data activity config).breakdown.taxPayroll ∧
    (calculateReal data activity config adj).breakdown.taxSales +
        (calculateReal data activity config adj).breakdown.taxIncome +
        (calculateReal data activity config adj).breakdown.taxPayroll +
        (calculateReal data activity config adj).breakdown.charges +
        realTotalFinancialTaxes data config =
      (calculateReal data activity config adj).totalTax +
        (calculateReal data activity config adj).breakdown.taxPayroll ∧
    (calculateReform data displayLines reformConfig
        (calculateReal data activity config adj)).totalTax =
      reformTotalIVA data displayLines reformConfig +
        (calculateReal data activity config adj).breakdown.taxIncome +
        2 * cppAmount data config + fgtsVal data config := by
  by_cases hb : SIMPLES_LIMIT < data.revenueAnnual
  · refine ⟨?_, ?_, ?_, ?_, ?_, ?_, ?_⟩
    · simp [calculateSimples, if_pos hb, emptyDetailed]
    · simp only [calculatePresumido, chargesAmount]
    · simp only [calculateReal, chargesAmount]
    · simp [calculateSimples, if_pos hb]
    · simp only [calculatePresumido, presumidoTotalTax, chargesAmount]; ring
    · simp only [calculateReal, realTotalTax, chargesAmount]; ring
    · simp only [calculateReform, calculateReal, realTotalTax, chargesAmount]; ring
  · refine ⟨?_, ?_, ?_, ?_, ?_, ?_, ?_⟩
    · simp only [calculateSimples, if_neg hb, emptyDetailed]
      ring_nf
    · simp only [calculatePresumido, chargesAmount]
    · simp only [calculateReal, chargesAmount]
    · simp only [calculateSimples, if_neg hb]
      ring
    · simp only [calculatePresumido, presumidoTotalTax, chargesAmount]; ring
    · simp only [calculateReal, realTotalTax, chargesAmount]; ring
    · simp only [calculateReform, calculateReal, realTotalTax, chargesAmount]; ring

/-- C7: revenue strictly above the 4,800,000 ceiling returns a blocked,
zero-tax result with an explanatory note and no computed details; revenue at
or below the ceiling is not blocked; bracket lookup takes the first bracket
whose limit is ≥ the trailing-12-month revenue (so revenue exactly at a
bracket limit selects that bracket, for every bracket of every annex) and
falls back to the last bracket when every limit is below the revenue. -/
theorem simples_bracket_boundary (data : FinancialData) (activity : ActivityType) :
    (SIMPLES_LIMIT < data.revenueAnnual →
      (calculateSimples data activity).isBlocked = true ∧
      (calculateSimples data activity).totalTax = 0 ∧
      (calculateSimples data activity).notes ≠ [] ∧
      (calculateSimples data activity).details = [] ∧
      (calculateSimples data activity).detailed = emptyDetailed) ∧
    (data.revenueAnnual ≤ SIMPLES_LIMIT →
      (calculateSimples data activity).isBlocked = false) ∧
    (∀ annex ∈ ALL_ANEXOS, ∀ r ∈ annex.ranges, simplesRange annex r.limit = r) ∧
    (∀ (annex : SimplesAnnex) (rbt12 : ℚ),
      (∀ r ∈ annex.ranges, r.limit < rbt12) →
        simplesRange annex rbt12 = annex.ranges.getLastD ⟨0, 0, 0⟩) ∧
    (∀ (annex : SimplesAnnex) (rbt12 : ℚ),
      (∃ r ∈ annex.ranges, rbt12 ≤ r.limit) →
        simplesRange annex rbt12 ∈ annex.ranges ∧
          rbt12 ≤ (simplesRange annex rbt12).limit) := by
  refine ⟨?_, ?_, ?_, ?_, ?_⟩
  · intro h
    refine ⟨?_, ?_, ?_, ?_, ?_⟩ <;> simp [calculateSimples, if_pos h]
  · intro h
    simp [calculateSimples, if_neg (not_lt.mpr h)]
  · intro a ha r hr
    fin_cases ha <;> fin_cases hr <;>
      simp +decide [simplesRange, ANEXO_I, ANEXO_II, ANEXO_III, ANEXO_IV, ANEXO_V, List.find?]
  · intro annex rbt12 h
    unfold simplesRange
    cases hfind : annex.ranges.find? (fun r => rbt12 ≤ r.limit) with
    | none => rfl
    | some r =>
        have hmem := List.mem_of_find?_eq_some hfind
        have hp := List.find?_some hfind
        have : rbt12 ≤ r.limit := by simpa using hp
        exact absurd this (not_le.mpr (h r hmem))
  · intro annex rbt12 h
    unfold simplesRange
    cases hfind : annex.ranges.find? (fun r => rbt12 ≤ r.limit) with
    | none =>
        obtain ⟨r, hr, hle⟩ := h
        have := List.find?_eq_none.mp hfind r hr
        simp at this
        exact absurd hle (not_le.mpr this)
    | some r =>
        have hmem := List.mem_of_find?_eq_some hfind
        have hp := List.find?_some hfind
        exact ⟨hmem, by simpa using hp⟩

/-- C7 witness: revenue one unit above the ceiling is blocked with zero total
tax, revenue exactly at the ceiling is not blocked, and revenue at the second
bracket limit of Annex I selects that bracket. -/
theorem simples_bracket_boundary_witness :
    (calculateSimples { zeroData with revenueAnnual := 4800001 } ActivityType.COMERCIO).isBlocked = true ∧
    (calculateSimples { zeroData with revenueAnnual := 4800001 } ActivityType.COMERCIO).totalTax = 0 ∧
    (calculateSimples { zeroData with revenueAnnual := 4800000 } ActivityType.COMERCIO).isBlocked = false ∧
    simplesRange ANEXO_I 360000 = ⟨360000, 7.3, 5940⟩ := by
  refine ⟨?_, ?_, ?_, ?_⟩
  · exact ((simples_bracket_boundary { zeroData with revenueAnnual := 4800001 }
      ActivityType.COMERCIO).1 (by norm_num [SIMPLES_LIMIT])).1
  · exact ((simples_bracket_boundary { zeroData with revenueAnnual := 4800001 }
      ActivityType.COMERCIO).1 (by norm_num [SIMPLES_LIMIT])).2.1
  · exact (simples_bracket_boundary { zeroData with revenueAnnual := 4800000 }
      ActivityType.COMERCIO).2.1 (by norm_num [SIMPLES_LIMIT])
  · exact (simples_bracket_boundary zeroData ActivityType.COMERCIO).2.2.1 ANEXO_I
      (by simp [ALL_ANEXOS]) ⟨360000, 7.3, 5940⟩ (by simp [ANEXO_I])

/-- Zero revenue, deductions 100, and the credit-base override set to
revenue − deductions = −100: the input refuting C2 as stated. -/
def c2data : FinancialData :=
  { zeroData with deductions := 100, realCreditBase := some (-100) }

/-- C2 counterexample: with revenue 0 and deductions 100 the code floors the
debit base at zero (`max(0, revenue − deductions)`), so the debit is not
(revenue − deductions) × rate, and setting the credit-base override equal to
revenue − deductions leaves a strictly positive PIS payable (33/20) instead
of zero. -/
theorem real_pis_cofins_counterexample :
    c2data.realCreditBase = some (c2data.revenueAnnual - c2data.deductions) ∧
    realDebitoPis c2data DEFAULT_REAL_CONFIG ≠
      (c2data.revenueAnnual - c2data.deductions) * (DEFAULT_REAL_CONFIG.pis / 100) ∧
    (calculateReal c2data ActivityType.SERVICO_ANEXO_III DEFAULT_REAL_CONFIG
      ⟨0, 0⟩).detailed.pis = 33 / 20 ∧
    (calculateReal c2data ActivityType.SERVICO_ANEXO_III DEFAULT_REAL_CONFIG
      ⟨0, 0⟩).detailed.pis ≠ 0 := by
  refine ⟨by norm_num [c2data, zeroData], ?_, ?_, ?_⟩
  · norm_num [realDebitoPis, realRevenueBase, c2data, zeroData, DEFAULT_REAL_CONFIG]
  · norm_num [calculateReal, realPisPayable, realDebitoPis, realRevenueBase,
      realCreditBaseVal, c2data, zeroData, DEFAULT_REAL_CONFIG]
  · norm_num [calculateReal, realPisPayable, realDebitoPis, realRevenueBase,
      realCreditBaseVal, c2data, zeroData, DEFAULT_REAL_CONFIG]

/-- C2 amended: the PIS/COFINS debit is max(0, revenue − deductions) × the
respective rate (zero-floored base); the credit-base is the explicit override
if present, else cost of goods for goods/industrial activities, else 20% of
operating expenses; each payable is max(0, debit − credit), computed
independently, hence never negative; and setting the credit-base override to
the floored base max(0, revenue − deductions) drives both payables to zero. -/
theorem real_pis_cofins_netting (data : FinancialData) (activity : ActivityType)
    (config : TaxRateConfig) :
    realDebitoPis data config =
      max 0 (data.revenueAnnual - data.deductions) * (config.pis / 100) ∧
    realDebitoCofins data config =
      max 0 (data.revenueAnnual - data.deductions) * (config.cofins / 100) ∧
    (∀ c, data.realCreditBase = some c → realCreditBaseVal data activity = c) ∧
    (data.realCreditBase = none → isComercioIndustria activity = true →
      realCreditBaseVal data activity = data.cogs) ∧
    (data.realCreditBase = none → isComercioIndustria activity = false →
      realCreditBaseVal data activity = data.expenses * 0.20) ∧
    realPisPayable data activity config =
      max 0 (realDebitoPis data config -
        realCreditBaseVal data activity * (config.pis / 100)) ∧
    realCofinsPayable data activity config =
      max 0 (realDebitoCofins data config -
        realCreditBaseVal data activity * (config.cofins / 100)) ∧
    0 ≤ realPisPayable data activity config ∧
    0 ≤ realCofinsPayable data activity config ∧
    (∀ adj, (calculateReal data activity config adj).detailed.pis =
      realPisPayable data activity config) ∧
    (∀ adj, (calculateReal data activity config adj).detailed.cofins =
      realCofinsPayable data activity config) ∧
    (data.realCreditBase = some (max 0 (data.revenueAnnual - data.deductions)) →
      realPisPayable data activity config = 0 ∧
      realCofinsPayable data activity config = 0) := by
  refine ⟨rfl, rfl, ?_, ?_, ?_, rfl, rfl, le_max_left 0 _, le_max_left 0 _,
    fun _ => rfl, fun _ => rfl, ?_⟩
  · intro c hc; simp [realCreditBaseVal, hc]
  · intro hn hact; simp [realCreditBaseVal, hn, hact]
  · intro hn hact; simp [realCreditBaseVal, hn, hact]
  · intro hover
    have hcb : realCreditBaseVal data activity =
        max 0 (data.revenueAnnual - data.deductions) := by
      simp [realCreditBaseVal, hover]
    constructor
    · simp [realPisPayable, realDebitoPis, realRevenueBase, hcb]
    · simp [realCofinsPayable, realDebitoCofins, realRevenueBase, hcb]

/-- C2 witness: with revenue 1000, no deductions and the credit-base override
set to the floored base 1000, both payables are zero and the override is
honoured. -/
theorem real_pis_cofins_netting_witness :
    realPisPayable { zeroData with revenueAnnual := 1000, realCreditBase := some 1000 }
      ActivityType.SERVICO_ANEXO_III DEFAULT_REAL_CONFIG = 0 ∧
    realCofinsPayable { zeroData with revenueAnnual := 1000, realCreditBase := some 1000 }
      ActivityType.SERVICO_ANEXO_III DEFAULT_REAL_CONFIG = 0 ∧
    realCreditBaseVal { zeroData with revenueAnnual := 1000, realCreditBase := some 1000 }
      ActivityType.SERVICO_ANEXO_III = 1000 := by
  have h := real_pis_cofins_netting
    { zeroData with revenueAnnual := 1000, realCreditBase := some 1000 }
    ActivityType.SERVICO_ANEXO_III DEFAULT_REAL_CONFIG
  have hz := h.2.2.2.2.2.2.2.2.2.2.2 (by norm_num [zeroData])
  exact ⟨hz.1, hz.2, h.2.2.1 1000 rfl⟩

/-- Case analysis of the regime selector: blocked results are filtered out,
the actual-profit result is the fallback when everything is blocked, the
choice is minimal by total tax among the unblocked results, and a tie is
resolved in favour of the later result in the order simplified, presumed,
actual. -/
theorem bestCurrent_spec (s p r : TaxSimulationResult) :
    (s.isBlocked = true → p.isBlocked = true → r.isBlocked = true → bestCurrent s p r = r) ∧
    (bestCurrent s p r = s ∨ bestCurrent s p r = p ∨ bestCurrent s p r = r) ∧
    (s.isBlocked = false → (bestCurrent s p r).totalTax ≤ s.totalTax) ∧
    (p.isBlocked = false → (bestCurrent s p r).totalTax ≤ p.totalTax) ∧
    (r.isBlocked = false → (bestCurrent s p r).totalTax ≤ r.totalTax) ∧
    ((s.isBlocked = false ∨ p.isBlocked = false ∨ r.isBlocked = false) →
      (bestCurrent s p r).isBlocked = false) ∧
    (s.isBlocked = false → p.isBlocked = false → s.totalTax = p.totalTax →
      (r.isBlocked = true ∨ p.totalTax < r.totalTax) → bestCurrent s p r = p) ∧
    (s.isBlocked = false → p.isBlocked = false → r.isBlocked = false →
      s.totalTax = p.totalTax → p.totalTax = r.totalTax → bestCurrent s p r = r) := by
  cases hs : s.isBlocked <;> cases hp : p.isBlocked <;> cases hr : r.isBlocked <;>
    simp only [bestCurrent, List.filter, hs, hp, hr, Bool.not_true, Bool.not_false,
      List.foldl_cons, List.foldl_nil] <;>
    (try split_ifs) <;>
    refine ⟨?_, ?_, ?_, ?_, ?_, ?_, ?_, ?_⟩ <;>
    intros <;> simp_all <;> try tauto
  all_goals try linarith

/-- C4 counterexample: with the simplified and presumed results tied at total
tax 100 (both unblocked), the selector returns the presumed result — the last
encountered of the tied minima — not the simplified one the claim predicts. -/
theorem selector_tie_counterexample :
    bestCurrent (mkRes "Simples Nacional" 100 false) (mkRes "Lucro Presumido" 100 false)
        (mkRes "Lucro Real" 200 false) =
      mkRes "Lucro Presumido" 100 false ∧
    bestCurrent (mkRes "Simples Nacional" 100 false) (mkRes "Lucro Presumido" 100 false)
        (mkRes "Lucro Real" 200 false) ≠
      mkRes "Simples Nacional" 100 false := by
  constructor
  · norm_num [bestCurrent, mkRes, List.filter, List.foldl]
  · norm_num [bestCurrent, mkRes, List.filter, List.foldl]
    decide

/-- C4 amended: blocked results are filtered out; if none remain the
actual-profit result is the baseline regardless of block status; among the
remainder the minimum totalTax wins; ties keep the LAST encountered in the
order simplified, presumed, actual (not the first); the claim's two concrete
examples hold: {A blocked, B 10000, C 8000} selects C and
{A 5000 unblocked, B 10000, C blocked} selects A. -/
theorem selector_baseline (s p r : TaxSimulationResult) :
    (s.isBlocked = true → p.isBlocked = true → r.isBlocked = true → bestCurrent s p r = r) ∧
    (bestCurrent s p r = s ∨ bestCurrent s p r = p ∨ bestCurrent s p r = r) ∧
    (s.isBlocked = false → (bestCurrent s p r).totalTax ≤ s.totalTax) ∧
    (p.isBlocked = false → (bestCurrent s p r).totalTax ≤ p.totalTax) ∧
    (r.isBlocked = false → (bestCurrent s p r).totalTax ≤ r.totalTax) ∧
    ((s.isBlocked = false ∨ p.isBlocked = false ∨ r.isBlocked = false) →
      (bestCurrent s p r).isBlocked = false) ∧
    (s.isBlocked = false → p.isBlocked = false → s.totalTax = p.totalTax →
      (r.isBlocked = true ∨ p.totalTax < r.totalTax) → bestCurrent s p r = p) ∧
    (s.isBlocked = false → p.isBlocked = false → r.isBlocked = false →
      s.totalTax = p.totalTax → p.totalTax = r.totalTax → bestCurrent s p r = r) ∧
    bestCurrent (mkRes "A" 0 true) (mkRes "B" 10000 false) (mkRes "C" 8000 false) =
      mkRes "C" 8000 false ∧
    bestCurrent (mkRes "A" 5000 false) (mkRes "B" 10000 false) (mkRes "C" 0 true) =
      mkRes "A" 5000 false := by
  obtain ⟨h1, h2, h3, h4, h5, h6, h7, h8⟩ := bestCurrent_spec s p r
  refine ⟨h1, h2, h3, h4, h5, h6, h7, h8, ?_, ?_⟩
  · norm_num [bestCurrent, mkRes, List.filter, List.foldl]
  · norm_num [bestCurrent, mkRes, List.filter, List.foldl]

/-- C4 witness: on the claim's first example the baseline is unblocked and its
total tax is at most 8000 (the unblocked minimum). -/
theorem selector_baseline_witness :
    (bestCurrent (mkRes "A" 0 true) (mkRes "B" 10000 false)
      (mkRes "C" 8000 false)).isBlocked = false ∧
    (bestCurrent (mkRes "A" 0 true) (mkRes "B" 10000 false)
      (mkRes "C" 8000 false)).totalTax ≤ 8000 := by
  have h := selector_baseline (mkRes "A" 0 true) (mkRes "B" 10000 false) (mkRes "C" 8000 false)
  exact ⟨h.2.2.2.2.2.1 (Or.inr (Or.inl rfl)), h.2.2.2.2.1 rfl⟩

/-- Negative revenue (−100) with payroll 100: the input refuting C8. -/
def negRevenueData : FinancialData :=
  { zeroData with revenueAnnual := -100, payrollBase := 100 }

/-- C8 counterexample: with annual revenue −100 and payroll 100 the
simplified calculator returns effectiveRate −8 (totalTax 8 divided by the
negative revenue, times 100), not 0 — the division is not guarded. -/
theorem effective_rate_counterexample :
    negRevenueData.revenueAnnual < 0 ∧
    (calculateSimples negRevenueData ActivityType.COMERCIO).totalTax = 8 ∧
    (calculateSimples negRevenueData ActivityType.COMERCIO).effectiveRate = -8 ∧
    (calculateSimples negRevenueData ActivityType.COMERCIO).effectiveRate ≠ 0 := by
  have hne : ActivityType.COMERCIO ≠ ActivityType.SERVICO_ANEXO_IV := by decide
  refine ⟨by norm_num [negRevenueData, zeroData], ?_, ?_, ?_⟩ <;>
    norm_num [calculateSimples, SIMPLES_LIMIT, simplesAnnexFor, simplesFactorR,
      simplesRange, ANEXO_I, List.find?, negRevenueData, zeroData, hne]

/-- C8 amended: no calculator guards the effective-rate division; each
returns effectiveRate = (totalTax / revenue) × 100 unconditionally, so for
every nonzero revenue effectiveRate × revenue = totalTax × 100 (in exact
arithmetic; revenue 0 divides by zero — Infinity/NaN in JavaScript), and
negative revenue with positive total tax yields a negative, nonzero rate
rather than the claimed 0. -/
theorem effective_rate_unguarded (data : FinancialData) (activity : ActivityType)
    (config : TaxRateConfig) (adj : LalurAdjustments)
    (displayLines : List DRELineItem) (reformConfig : ReformConfig)
    (best : TaxSimulationResult) (h : data.revenueAnnual ≠ 0) :
    (calculateSimples data activity).effectiveRate * data.revenueAnnual =
      (calculateSimples data activity).totalTax * 100 ∧
    (calculatePresumido data activity config).effectiveRate * data.revenueAnnual =
      (calculatePresumido data activity config).totalTax * 100 ∧
    (calculateReal data activity config adj).effectiveRate * data.revenueAnnual =
      (calculateReal data activity config adj).totalTax * 100 ∧
    (calculateReform data displayLines reformConfig best).effectiveRate * data.revenueAnnual =
      (calculateReform data displayLines reformConfig best).totalTax * 100 := by
  refine ⟨?_, ?_, ?_, ?_⟩
  · by_cases hb : SIMPLES_LIMIT < data.revenueAnnual
    · simp [calculateSimples, if_pos hb]
    · simp only [calculateSimples, if_neg hb]
      field_simp
  · simp only [calculatePresumido]
    field_simp
  · simp only [calculateReal]
    field_simp
  · simp only [calculateReform]
    field_simp

/-- C8 witness: at revenue −100 with payroll 100 the unguarded-rate equation
holds for the simplified calculator (−8 × −100 = 8 × 100). -/
theorem effective_rate_unguarded_witness :
    (calculateSimples negRevenueData ActivityType.COMERCIO).effectiveRate *
        negRevenueData.revenueAnnual =
      (calculateSimples negRevenueData ActivityType.COMERCIO).totalTax * 100 :=
  (effective_rate_unguarded negRevenueData ActivityType.COMERCIO DEFAULT_REAL_CONFIG
    ⟨0, 0⟩ [] DEFAULT_REFORM_CONFIG (mkRes "A" 0 false)
    (by norm_num [negRevenueData, zeroData])).1

/-- The sixteen rate fields of `TaxRateConfig`, used to state per-field
monotonicity. -/
inductive RateField where
  | pis | cofins | irpj | irpjAdicional | csll | ipi | iss | icms
  | rat | cpp | inssTerceiros | fgts | presuncaoIRPJ | presuncaoCSLL
  | pisFinancial | cofinsFinancial
deriving DecidableEq, Repr

/-- Read one rate field. -/
def getRate (config : TaxRateConfig) : RateField → ℚ
  | RateField.pis => config.pis
  | RateField.cofins => config.cofins
  | RateField.irpj => config.irpj
  | RateField.irpjAdicional => config.irpjAdicional
  | RateField.csll => config.csll
  | RateField.ipi => config.ipi
  | RateField.iss => config.iss
  | RateField.icms => config.icms
  | RateField.rat => config.rat
  | RateField.cpp => config.cpp
  | RateField.inssTerceiros => config.inssTerceiros
  | RateField.fgts => config.fgts
  | RateField.presuncaoIRPJ => config.presuncaoIRPJ
  | RateField.presuncaoCSLL => config.presuncaoCSLL
  | RateField.pisFinancial => config.pisFinancial
  | RateField.cofinsFinancial => config.cofinsFinancial

/-- Replace one rate field, leaving the other fifteen unchanged. -/
def setRate (config : TaxRateConfig) : RateField → ℚ → TaxRateConfig
  | RateField.pis, v => { config with pis := v }
  | RateField.cofins, v => { config with cofins := v }
  | RateField.irpj, v => { config with irpj := v }
  | RateField.irpjAdicional, v => { config with irpjAdicional := v }
  | RateField.csll, v => { config with csll := v }
  | RateField.ipi, v => { config with ipi := v }
  | RateField.iss, v => { config with iss := v }
  | RateField.icms, v => { config with icms := v }
  | RateField.rat, v => { config with rat := v }
  | RateField.cpp, v => { config with cpp := v }
  | RateField.inssTerceiros, v => { config with inssTerceiros := v }
  | RateField.fgts, v => { config with fgts := v }
  | RateField.presuncaoIRPJ, v => { config with presuncaoIRPJ := v }
  | RateField.presuncaoCSLL, v => { config with presuncaoCSLL := v }
  | RateField.pisFinancial, v => { config with pisFinancial := v }
  | RateField.cofinsFinancial, v => { config with cofinsFinancial := v }

/-- Nonnegative revenue, payroll base and financial revenue (these are sums of
absolute values of ledger lines in the application). -/
def NonnegData (data : FinancialData) : Prop :=
  0 ≤ data.revenueAnnual ∧ 0 ≤ data.payrollBase ∧ 0 ≤ data.financialRevenues

/-- All sixteen configured rates are nonnegative. -/
def NonnegConfig (c : TaxRateConfig) : Prop :=
  0 ≤ c.pis ∧ 0 ≤ c.cofins ∧ 0 ≤ c.irpj ∧ 0 ≤ c.irpjAdicional ∧ 0 ≤ c.csll ∧
  0 ≤ c.ipi ∧ 0 ≤ c.iss ∧ 0 ≤ c.icms ∧ 0 ≤ c.rat ∧ 0 ≤ c.cpp ∧
  0 ≤ c.inssTerceiros ∧ 0 ≤ c.fgts ∧ 0 ≤ c.presuncaoIRPJ ∧ 0 ≤ c.presuncaoCSLL ∧
  0 ≤ c.pisFinancial ∧ 0 ≤ c.cofinsFinancial

/-- Fieldwise order on rate configurations. -/
def ConfigLE (c c' : TaxRateConfig) : Prop :=
  c.pis ≤ c'.pis ∧ c.cofins ≤ c'.cofins ∧ c.irpj ≤ c'.irpj ∧
  c.irpjAdicional ≤ c'.irpjAdicional ∧ c.csll ≤ c'.csll ∧ c.ipi ≤ c'.ipi ∧
  c.iss ≤ c'.iss ∧ c.icms ≤ c'.icms ∧ c.rat ≤ c'.rat ∧ c.cpp ≤ c'.cpp ∧
  c.inssTerceiros ≤ c'.inssTerceiros ∧ c.fgts ≤ c'.fgts ∧
  c.presuncaoIRPJ ≤ c'.presuncaoIRPJ ∧ c.presuncaoCSLL ≤ c'.presuncaoCSLL ∧
  c.pisFinancial ≤ c'.pisFinancial ∧ c.cofinsFinancial ≤ c'.cofinsFinancial

/-- Increasing one field by a nonnegative amount is a fieldwise increase. -/
theorem configLE_setRate (c : TaxRateConfig) (f : RateField) (δ : ℚ) (hδ : 0 ≤ δ) :
    ConfigLE c (setRate c f (getRate c f + δ)) := by
  cases f <;> simp [ConfigLE, setRate, getRate] <;> linarith

/-- Presumed-profit total tax is monotone under a fieldwise rate increase,
given nonnegative aggregates and nonnegative starting rates. -/
theorem presumido_mono (data : FinancialData) (activity : ActivityType)
    {c c' : TaxRateConfig} (hd : NonnegData data) (hc : NonnegConfig c)
    (hle : ConfigLE c c') :
    presumidoTotalTax data activity c ≤ presumidoTotalTax data activity c' := by
  obtain ⟨hrev, hpay, hfin⟩ := hd
  obtain ⟨c1, c2, c3, c4, c5, c6, c7, c8, c9, c10, c11, c12, c13, c14, c15, c16⟩ := hc
  obtain ⟨l1, l2, l3, l4, l5, l6, l7, l8, l9, l10, l11, l12, l13, l14, l15, l16⟩ := hle
  have h100 : (0:ℚ) < 100 := by norm_num
  have hdiv : ∀ x y : ℚ, x ≤ y → x / 100 ≤ y / 100 := fun x y h => by linarith
  have hbI : presumidoBaseIRPJ data c ≤ presumidoBaseIRPJ data c' := by
    unfold presumidoBaseIRPJ
    have := mul_le_mul_of_nonneg_left (hdiv _ _ l13) hrev
    linarith
  have hbI0 : 0 ≤ presumidoBaseIRPJ data c := by
    unfold presumidoBaseIRPJ
    have := mul_nonneg hrev (div_nonneg c13 h100.le)
    linarith
  have hbC : presumidoBaseCSLL data c ≤ presumidoBaseCSLL data c' := by
    unfold presumidoBaseCSLL
    have := mul_le_mul_of_nonneg_left (hdiv _ _ l14) hrev
    linarith
  have hbC0 : 0 ≤ presumidoBaseCSLL data c := by
    unfold presumidoBaseCSLL
    have := mul_nonneg hrev (div_nonneg c14 h100.le)
    linarith
  have hA : presumidoTotalIRPJ data c ≤ presumidoTotalIRPJ data c' := by
    unfold presumidoTotalIRPJ presumidoIrpjBasico presumidoIrpjAdicional
    have h1 : presumidoBaseIRPJ data c * (c.irpj / 100) ≤
        presumidoBaseIRPJ data c' * (c'.irpj / 100) :=
      mul_le_mul hbI (hdiv _ _ l3) (div_nonneg c3 h100.le) (le_trans hbI0 hbI)
    have h2 : max 0 (presumidoBaseIRPJ data c - THRESHOLD_ADICIONAL_IRPJ) ≤
        max 0 (presumidoBaseIRPJ data c' - THRESHOLD_ADICIONAL_IRPJ) :=
      max_le_max le_rfl (by linarith)
    have h3 : max 0 (presumidoBaseIRPJ data c - THRESHOLD_ADICIONAL_IRPJ) *
        (c.irpjAdicional / 100) ≤
        max 0 (presumidoBaseIRPJ data c' - THRESHOLD_ADICIONAL_IRPJ) *
        (c'.irpjAdicional / 100) :=
      mul_le_mul h2 (hdiv _ _ l4) (div_nonneg c4 h100.le)
        (le_trans (le_max_left 0 _) h2)
    linarith
  have hB : presumidoTotalCSLL data c ≤ presumidoTotalCSLL data c' := by
    unfold presumidoTotalCSLL
    exact mul_le_mul hbC (hdiv _ _ l5) (div_nonneg c5 h100.le) (le_trans hbC0 hbC)
  have hC : presumidoTotalSalesTax data activity c ≤
      presumidoTotalSalesTax data activity c' := by
    unfold presumidoTotalSalesTax presumidoIss presumidoIcms
    have h1 := mul_le_mul_of_nonneg_left (hdiv _ _ l1) hrev
    have h2 := mul_le_mul_of_nonneg_left (hdiv _ _ l2) hrev
    have h6 := mul_le_mul_of_nonneg_left (hdiv _ _ l6) hrev
    have h7 := mul_le_mul_of_nonneg_left (hdiv _ _ l7) hrev
    have h8 := mul_le_mul_of_nonneg_left (hdiv _ _ l8) hrev
    cases hact : isComercioIndustria activity <;>
      simp only [Bool.false_eq_true, Bool.true_eq_false, if_true, if_false, ite_true,
        ite_false] <;> linarith
  have hD : cppAmount data c ≤ cppAmount data c' := by
    unfold cppAmount cppVal ratVal terceirosVal
    have h9 := mul_le_mul_of_nonneg_left (hdiv _ _ l9) hpay
    have h10 := mul_le_mul_of_nonneg_left (hdiv _ _ l10) hpay
    have h11 := mul_le_mul_of_nonneg_left (hdiv _ _ l11) hpay
    linarith
  have hE : fgtsVal data c ≤ fgtsVal data c' := by
    unfold fgtsVal
    exact mul_le_mul_of_nonneg_left (hdiv _ _ l12) hpay
  unfold presumidoTotalTax
  linarith

/-- Income tax plus social contribution as a function of taxable income
(matching `totalIRPJ + totalCSLL` of `calculateReal`). -/
def incomeTaxOn (config : TaxRateConfig) (t : ℚ) : ℚ :=
  t * (config.irpj / 100) +
    max 0 (t - THRESHOLD_ADICIONAL_IRPJ) * (config.irpjAdicional / 100) +
    t * (config.csll / 100)

/-- The rate-dependent outflows the taxable income is net of: sales taxes,
financial-revenue taxes and employer charges. -/
def realW (data : FinancialData) (activity : ActivityType) (config : TaxRateConfig) : ℚ :=
  realTotalSalesTax data activity config + realTotalFinancialTaxes data config +
    chargesAmount data config

/-- The rate-independent part of the adjusted pre-tax result. -/
def realZ (data : FinancialData) (adj : LalurAdjustments) : ℚ :=
  data.revenueAnnual - data.deductions - data.cogs - data.expenses - data.payrollBase +
    data.financialRevenues - data.financialExpenses + adj.additions - adj.exclusions

/-- Source `calculateReal`'s total tax decomposes into income tax on taxable income
plus the rate-dependent outflows. -/
theorem realTotalTax_decomp (data : FinancialData) (activity : ActivityType)
    (config : TaxRateConfig) (adj : LalurAdjustments) :
    realTotalTax data activity config adj =
      incomeTaxOn config (realTaxableIncome data activity config adj) +
        realW data activity config := by
  unfold realTotalTax incomeTaxOn realW realTotalIRPJ realIrpjBasico realIrpjAdicional
    realTotalCSLL chargesAmount
  ring

/-- Taxable income is the zero-floored difference between the
rate-independent result and the rate-dependent outflows. -/
theorem realTaxableIncome_decomp (data : FinancialData) (activity : ActivityType)
    (config : TaxRateConfig) (adj : LalurAdjustments) :
    realTaxableIncome data activity config adj =
      max 0 (realZ data adj - realW data activity config) := by
  unfold realTaxableIncome realZ realW realProfitBeforeTax realOperationalResult
    realNetRevenue realFinancialResult realTotalDeductibleExpenses
  exact congrArg (max 0) (by ring)

/-- Zero-floored products are monotone in a nonnegative factor. -/
theorem max_mul_rate_mono (B q q' : ℚ) (hq : 0 ≤ q) (hqq : q ≤ q') :
    max 0 (B * q) ≤ max 0 (B * q') := by
  rcases le_total 0 B with hB | hB
  · exact max_le_max le_rfl (mul_le_mul_of_nonneg_left hqq hB)
  · have h1 : B * q ≤ 0 := mul_nonpos_iff.mpr (Or.inr ⟨hB, hq⟩)
    have h2 : B * q' ≤ 0 := mul_nonpos_iff.mpr (Or.inr ⟨hB, le_trans hq hqq⟩)
    rw [max_eq_left h1, max_eq_left h2]

/-- Zero floors are antitone in the subtracted amount, and 1-Lipschitz. -/
theorem max_sub_mono (z w w' : ℚ) (h : w ≤ w') :
    max 0 (z - w') ≤ max 0 (z - w) ∧
      max 0 (z - w) - max 0 (z - w') ≤ w' - w := by
  constructor
  · exact max_le_max le_rfl (by linarith)
  · rcases le_total (z - w) 0 with h1 | h1 <;> rcases le_total (z - w') 0 with h2 | h2
    · rw [max_eq_left h1, max_eq_left h2]; linarith
    · rw [max_eq_left h1, max_eq_right h2]; linarith
    · rw [max_eq_right h1, max_eq_left h2]; linarith
    · rw [max_eq_right h1, max_eq_right h2]; linarith

/-- The rate-dependent outflows of `calculateReal` are monotone under a
fieldwise rate increase. -/
theorem realW_mono (data : FinancialData) (activity : ActivityType)
    {c c' : TaxRateConfig} (hd : NonnegData data) (hc : NonnegConfig c)
    (hle : ConfigLE c c') :
    realW data activity c ≤ realW data activity c' := by
  obtain ⟨hrev, hpay, hfin⟩ := hd
  obtain ⟨c1, c2, c3, c4, c5, c6, c7, c8, c9, c10, c11, c12, c13, c14, c15, c16⟩ := hc
  obtain ⟨l1, l2, l3, l4, l5, l6, l7, l8, l9, l10, l11, l12, l13, l14, l15, l16⟩ := hle
  have h100 : (0:ℚ) ≤ 100 := by norm_num
  have hdiv : ∀ x y : ℚ, x ≤ y → x / 100 ≤ y / 100 := fun x y h => by linarith
  have hpis : realPisPayable data activity c ≤ realPisPayable data activity c' := by
    unfold realPisPayable realDebitoPis
    have e : ∀ q : ℚ, realRevenueBase data * (q / 100) -
        realCreditBaseVal data activity * (q / 100) =
        (realRevenueBase data - realCreditBaseVal data activity) * (q / 100) :=
      fun q => by ring
    rw [e, e]
    exact max_mul_rate_mono _ _ _ (div_nonneg c1 h100) (hdiv _ _ l1)
  have hcof : realCofinsPayable data activity c ≤ realCofinsPayable data activity c' := by
    unfold realCofinsPayable realDebitoCofins
    have e : ∀ q : ℚ, realRevenueBase data * (q / 100) -
        realCreditBaseVal data activity * (q / 100) =
        (realRevenueBase data - realCreditBaseVal data activity) * (q / 100) :=
      fun q => by ring
    rw [e, e]
    exact max_mul_rate_mono _ _ _ (div_nonneg c2 h100) (hdiv _ _ l2)
  have hiss : realIss data activity c ≤ realIss data activity c' := by
    unfold realIss
    cases hact : isComercioIndustria activity <;>
      simp only [Bool.false_eq_true, Bool.true_eq_false, if_true, if_false, ite_true,
        ite_false]
    · exact mul_le_mul_of_nonneg_left (hdiv _ _ l7) hrev
    · exact le_rfl
  have hicms : realIcms data activity c ≤ realIcms data activity c' := by
    unfold realIcms
    cases hact : isComercioIndustria activity <;>
      simp only [Bool.false_eq_true, Bool.true_eq_false, if_true, if_false, ite_true,
        ite_false]
    · exact le_rfl
    · exact mul_le_mul_of_nonneg_left (hdiv _ _ l8) hrev
  have hipi : realIpi data c ≤ realIpi data c' := by
    unfold realIpi
    exact mul_le_mul_of_nonneg_left (hdiv _ _ l6) hrev
  have hfint : realTotalFinancialTaxes data c ≤ realTotalFinancialTaxes data c' := by
    unfold realTotalFinancialTaxes realPisFinancial realCofinsFinancial
    have ha := mul_le_mul_of_nonneg_left (hdiv _ _ l15) hfin
    have hb := mul_le_mul_of_nonneg_left (hdiv _ _ l16) hfin
    linarith
  have hch : chargesAmount data c ≤ chargesAmount data c' := by
    unfold chargesAmount cppAmount cppVal ratVal terceirosVal fgtsVal
    have h9 := mul_le_mul_of_nonneg_left (hdiv _ _ l9) hpay
    have h10 := mul_le_mul_of_nonneg_left (hdiv _ _ l10) hpay
    have h11 := mul_le_mul_of_nonneg_left (hdiv _ _ l11) hpay
    have h12 := mul_le_mul_of_nonneg_left (hdiv _ _ l12) hpay
    linarith
  unfold realW realTotalSalesTax
  linarith

/-- Income tax on a fixed nonnegative taxable income is monotone in the
income rates. -/
theorem incomeTaxOn_rate_mono {c c' : TaxRateConfig} (t : ℚ) (ht : 0 ≤ t)
    (hle : ConfigLE c c') : incomeTaxOn c t ≤ incomeTaxOn c' t := by
  obtain ⟨-, -, l3, l4, l5, -⟩ := hle
  have hdiv : ∀ x y : ℚ, x ≤ y → x / 100 ≤ y / 100 := fun x y h => by linarith
  unfold incomeTaxOn
  have h1 := mul_le_mul_of_nonneg_left (hdiv _ _ l3) ht
  have h2 := mul_le_mul_of_nonneg_left (hdiv _ _ l4)
    (le_max_left 0 (t - THRESHOLD_ADICIONAL_IRPJ))
  have h3 := mul_le_mul_of_nonneg_left (hdiv _ _ l5) ht
  linarith

/-- Income tax is 1-Lipschitz in taxable income when the combined marginal
rate irpj + irpjAdicional + csll does not exceed 100%. -/
theorem incomeTaxOn_lipschitz {c : TaxRateConfig} (t t' : ℚ)
    (htt : t' ≤ t) (hc : NonnegConfig c)
    (hcap : c.irpj + c.irpjAdicional + c.csll ≤ 100) :
    incomeTaxOn c t - incomeTaxOn c t' ≤ t - t' := by
  obtain ⟨-, -, c3, c4, c5, -⟩ := hc
  have h100 : (0:ℚ) ≤ 100 := by norm_num
  have hd : 0 ≤ t - t' := by linarith
  have hm1 : max 0 (t - THRESHOLD_ADICIONAL_IRPJ) -
      max 0 (t' - THRESHOLD_ADICIONAL_IRPJ) ≤ t - t' := by
    have h := (max_sub_mono (t - THRESHOLD_ADICIONAL_IRPJ + t') t' t (by linarith)).2
    have e1 : t - THRESHOLD_ADICIONAL_IRPJ + t' - t' = t - THRESHOLD_ADICIONAL_IRPJ := by
      ring
    have e2 : t - THRESHOLD_ADICIONAL_IRPJ + t' - t = t' - THRESHOLD_ADICIONAL_IRPJ := by
      ring
    rw [e1, e2] at h
    linarith
  have hrw : incomeTaxOn c t - incomeTaxOn c t' =
      (t - t') * (c.irpj / 100) +
        (max 0 (t - THRESHOLD_ADICIONAL_IRPJ) - max 0 (t' - THRESHOLD_ADICIONAL_IRPJ)) *
          (c.irpjAdicional / 100) +
        (t - t') * (c.csll / 100) := by
    unfold incomeTaxOn; ring
  rw [hrw]
  have k2 : (max 0 (t - THRESHOLD_ADICIONAL_IRPJ) - max 0 (t' - THRESHOLD_ADICIONAL_IRPJ)) *
      (c.irpjAdicional / 100) ≤ (t - t') * (c.irpjAdicional / 100) :=
    mul_le_mul_of_nonneg_right hm1 (div_nonneg c4 h100)
  have k4 : (t - t') * ((c.irpj + c.irpjAdicional + c.csll) / 100) ≤ (t - t') * 1 :=
    mul_le_mul_of_nonneg_left (by linarith) hd
  nlinarith [k2, k4]

/-- Actual-profit total tax is monotone under a fieldwise rate increase: the
direct gain in sales/financial/payroll outflows dominates the induced loss of
income tax, because income tax is 1-Lipschitz in taxable income under the
combined-rate cap. -/
theorem real_mono (data : FinancialData) (activity : ActivityType)
    (adj : LalurAdjustments) {c c' : TaxRateConfig} (hd : NonnegData data)
    (hc : NonnegConfig c) (hle : ConfigLE c c')
    (hcap : c.irpj + c.irpjAdicional + c.csll ≤ 100) :
    realTotalTax data activity c adj ≤ realTotalTax data activity c' adj := by
  have hW := realW_mono data activity hd hc hle
  have ht'0 : 0 ≤ realTaxableIncome data activity c' adj := le_max_left 0 _
  have hsub := max_sub_mono (realZ data adj) (realW data activity c)
    (realW data activity c') hW
  rw [← realTaxableIncome_decomp, ← realTaxableIncome_decomp] at hsub
  have hIT1 : incomeTaxOn c (realTaxableIncome data activity c' adj) ≤
      incomeTaxOn c' (realTaxableIncome data activity c' adj) :=
    incomeTaxOn_rate_mono _ ht'0 hle
  have hIT2 : incomeTaxOn c (realTaxableIncome data activity c adj) -
      incomeTaxOn c (realTaxableIncome data activity c' adj) ≤
      realTaxableIncome data activity c adj - realTaxableIncome data activity c' adj :=
    incomeTaxOn_lipschitz _ _ hsub.1 hc hcap
  rw [realTotalTax_decomp, realTotalTax_decomp]
  linarith

/-- A nonnegative all-zero rate configuration with CSLL 200% — combined
income rates above 100%, the region where C9 fails. -/
def c9config : TaxRateConfig :=
  { pis := 0, cofins := 0, irpj := 0, irpjAdicional := 0, csll := 200, ipi := 0
    iss := 0, icms := 0, rat := 0, cpp := 0, inssTerceiros := 0, fgts := 0
    presuncaoIRPJ := 0, presuncaoCSLL := 0, pisFinancial := 0, cofinsFinancial := 0 }

/-- Revenue 1000, credit base overridden to 0: the data refuting C9. -/
def c9data : FinancialData := { zeroData with revenueAnnual := 1000, realCreditBase := some 0 }

/-- C9 counterexample: with nonnegative data and rates (revenue 1000, CSLL
200%, everything else 0), raising the PIS rate of the actual-profit
configuration from 0 to 10 lowers total tax from 2000 to 1900, because the
extra sales tax shrinks taxable income and the CSLL on it falls faster. -/
theorem rate_monotonicity_counterexample :
    setRate c9config RateField.pis (getRate c9config RateField.pis + 10) =
      { c9config with pis := 10 } ∧
    NonnegData c9data ∧ NonnegConfig c9config ∧
    (calculateReal c9data ActivityType.SERVICO_ANEXO_III c9config ⟨0, 0⟩).totalTax = 2000 ∧
    (calculateReal c9data ActivityType.SERVICO_ANEXO_III { c9config with pis := 10 }
      ⟨0, 0⟩).totalTax = 1900 ∧
    ¬((calculateReal c9data ActivityType.SERVICO_ANEXO_III c9config ⟨0, 0⟩).totalTax ≤
      (calculateReal c9data ActivityType.SERVICO_ANEXO_III { c9config with pis := 10 }
        ⟨0, 0⟩).totalTax) := by
  refine ⟨by norm_num [setRate, getRate, c9config],
    by norm_num [NonnegData, c9data, zeroData],
    by norm_num [NonnegConfig, c9config], ?_, ?_, ?_⟩ <;>
    norm_num [calculateReal, realTotalTax, realTotalIRPJ, realIrpjBasico,
      realIrpjAdicional, realTotalCSLL, realTaxableIncome, realProfitBeforeTax,
      realOperationalResult, realNetRevenue, realTotalSalesTax, realPisPayable,
      realCofinsPayable, realDebitoPis, realDebitoCofins, realRevenueBase,
      realCreditBaseVal, realIss, realIcms, realIpi, realTotalDeductibleExpenses,
      chargesAmount, cppAmount, cppVal, ratVal, terceirosVal, fgtsVal,
      realFinancialResult, realTotalFinancialTaxes, realPisFinancial,
      realCofinsFinancial, THRESHOLD_ADICIONAL_IRPJ, c9data, c9config, zeroData, max_def]

/-- C9 amended: for the presumed-profit calculator, totalTax is monotonically
non-decreasing in each individual rate field provided the financial
aggregates (revenue, payroll, financial revenue) and all starting rates are
nonnegative; for the actual-profit calculator the same holds provided
additionally the combined marginal income rate irpj + irpjAdicional + csll
does not exceed 100% (without that cap the counterexample applies). -/
theorem rate_monotonicity (data : FinancialData) (activity : ActivityType)
    (c : TaxRateConfig) (adj : LalurAdjustments) (f : RateField) (δ : ℚ)
    (hδ : 0 ≤ δ) (hd : NonnegData data) (hc : NonnegConfig c) :
    (calculatePresumido data activity c).totalTax ≤
      (calculatePresumido data activity (setRate c f (getRate c f + δ))).totalTax ∧
    (c.irpj + c.irpjAdicional + c.csll ≤ 100 →
      (calculateReal data activity c adj).totalTax ≤
        (calculateReal data activity (setRate c f (getRate c f + δ)) adj).totalTax) := by
  have hle := configLE_setRate c f δ hδ
  constructor
  · show presumidoTotalTax data activity c ≤ presumidoTotalTax data activity _
    exact presumido_mono data activity hd hc hle
  · intro hcap
    show realTotalTax data activity c adj ≤ realTotalTax data activity _ adj
    exact real_mono data activity adj hd hc hle hcap

/-- C9 witness: raising the PIS rate of the default presumed-profit
configuration by 1 point does not lower either calculator's total tax on the
demo summary (combined income rates 15 + 10 + 9 = 34 ≤ 100). -/
theorem rate_monotonicity_witness :
    (calculatePresumido presumidoDemoData ActivityType.COMERCIO
        DEFAULT_PRESUMIDO_CONFIG).totalTax ≤
      (calculatePresumido presumidoDemoData ActivityType.COMERCIO
        (setRate DEFAULT_PRESUMIDO_CONFIG RateField.pis
          (getRate DEFAULT_PRESUMIDO_CONFIG RateField.pis + 1))).totalTax ∧
    (calculateReal presumidoDemoData ActivityType.COMERCIO DEFAULT_PRESUMIDO_CONFIG
        ⟨0, 0⟩).totalTax ≤
      (calculateReal presumidoDemoData ActivityType.COMERCIO
        (setRate DEFAULT_PRESUMIDO_CONFIG RateField.pis
          (getRate DEFAULT_PRESUMIDO_CONFIG RateField.pis + 1)) ⟨0, 0⟩).totalTax := by
  have h := rate_monotonicity presumidoDemoData ActivityType.COMERCIO
    DEFAULT_PRESUMIDO_CONFIG ⟨0, 0⟩ RateField.pis 1 (by norm_num)
    (by norm_num [NonnegData, presumidoDemoData, zeroData])
    (by norm_num [NonnegConfig, DEFAULT_PRESUMIDO_CONFIG])
  exact ⟨h.1, h.2 (by norm_num [DEFAULT_PRESUMIDO_CONFIG])⟩

end TaxSim
